import Mathlib

/-! Clight backlight module: capture/apply cycle, timeout selection, lifecycle.

Shallow embedding of `src/modules/backlight.c` and of `on_upower_change` of
`src/modules/upower.c`.

Modelling conventions.

* C `double` values are exact rationals (`ℚ`); rounding, infinities and NaN are
  outside the model.  C `int` values are `Int`; a C condition `if (x)` reads
  `x ≠ 0`.
* The globals `conf` and `state` and the file-level statics of the module
  (`sensor_available`, `max_kbd_backlight`, `bl_fd`) are fields of one record,
  `Mod`, that every function receives and returns.
* Two-dimensional C arrays are lists of rows; a read outside the array has no
  defined result and is `none`, so a function that indexes an array returns
  `Option`.
* Every call that leaves the module (bus method call, publication,
  subscription, timer arming) is appended to the trace `Mod.out` in program
  order.  The replies of the bus to the calls of one handler run are the
  fields of `Bus`.
* The actor runtime is outside the sources: `m_become` pushes a handler,
  `m_unbecome` pops one, `m_tell` queues a self-directed message that is
  delivered to the handler current at delivery, and registering or releasing a
  file descriptor twice is a no-op.
* `INFO`/`WARN` logging is not part of the model.
-/

namespace Clight

/-! ## Constants of the missing headers -/

/-- Modelled from the spec: `enum ac_states` of the absent header, power
source AC. -/
def ON_AC : Int := 0

/-- Modelled from the spec: `enum ac_states` of the absent header, power
source BATTERY. -/
def ON_BATTERY : Int := 1

/-- Modelled from the spec: number of power sources, {AC, BATTERY}. -/
def SIZE_AC : Nat := 2

/-- Modelled from the spec: time bucket of the day. -/
def DAY : Int := 0

/-- Modelled from the spec: time bucket of the night. -/
def NIGHT : Int := 1

/-- Modelled from the spec: number of time-of-day buckets. -/
def SIZE_STATES : Nat := 2

/-- Modelled from the spec: the reserved `IN_EVENT` slot, one more column
after the time-of-day buckets. -/
def IN_EVENT : Int := 2

/-! ## Data model -/

/-- Topics the module publishes on (`current_bl_topic`, `current_kbd_topic`,
`current_ab_topic`). -/
inductive Topic
  | CurrentBlPct
  | CurrentKbdPct
  | CurrentAmbientBr
  deriving DecidableEq, Repr

/-- Topics the module subscribes to in `init`. -/
inductive SubTopic
  | up_topic
  | display_topic
  | time_topic
  | evt_topic
  | interface_bl_to_topic
  | interface_bl_capture
  | interface_bl_curve
  | interface_bl_autocalib
  deriving DecidableEq, Repr

/-- Self-directed messages of the module (`pause_msg`, `resume_msg`). -/
inductive state_upd
  | PAUSE_UPD
  | RESUME_UPD
  deriving DecidableEq, Repr

/-- Receive handlers that `m_become` can install; the default handler is
`receive`. -/
inductive Recv
  | paused
  deriving DecidableEq, Repr

/-- Lifecycle state of the module. -/
inductive Lifecycle
  | ACTIVE
  | PAUSED
  deriving DecidableEq, Repr

/-- One observable action of the module, in the order of the C calls. -/
inductive Effect
  /-- Bus call `Sensor.Capture(dev_name, num_captures)`. -/
  | Capture (num_captures : Int)
  /-- Bus call `Backlight.SetAll(pct, (is_smooth, step, timeout), screen)`. -/
  | SetAll (pct : ℚ) (is_smooth : Int) (step : ℚ) (timeout : Int)
  /-- Bus call `KbdBacklight.SetBrightness(level)`. -/
  | SetBrightness (level : ℚ)
  /-- Bus call `KbdBacklight.GetMaxBrightness()`. -/
  | GetMaxBrightness
  /-- Bus call `Sensor.IsAvailable(dev_name)`. -/
  | IsAvailable
  /-- Publication `M_PUB(topic, msg)` with `msg.curr = curr`. -/
  | Pub (topic : Topic) (curr : ℚ)
  /-- Subscription `m_subscribe(topic)`. -/
  | Subscribe (topic : SubTopic)
  /-- Signal match `add_match(..., on_sensor_change)`. -/
  | AddMatch
  /-- Timer creation `start_timer(CLOCK_BOOTTIME, sec, nsec)`. -/
  | StartTimer (sec nsec : Int)
  /-- Timer arming `set_timeout(sec, nsec, fd, flags)`. -/
  | SetTimeout (sec nsec fd flags : Int)
  /-- Timer re-arming `reset_timer(fd, old_timeout, new_timeout)`. -/
  | ResetTimer (fd old_timeout new_timeout : Int)
  /-- Acknowledging read `read(fd, &t, sizeof(uint64_t))` of a timer expiry. -/
  | Read (fd : Int)
  /-- Publication `M_PUB(up_topic, &upower_msg)` of the UPOWER module. -/
  | PubAcState (old new : Int)
  deriving DecidableEq, Repr

/-- Type tag of a publish/subscribe message of the actor runtime: a user
message or a message of the runtime itself. -/
inductive ps_msg_type
  | USER
  | SYSTEM
  deriving DecidableEq, Repr

/-- Payload of a user message, by the type tag that `MSG_TYPE()` reads, with
the fields the handlers use. -/
inductive Message
  | UPOWER_UPDATE (old new : Int)
  | DISPLAY_UPDATE
  | TIME_UPDATE (old : Int)
  | TIMEOUT_UPDATE (old : Int)
  | DO_CAPTURE
  | CURVE_UPDATE (state : Int)
  | AUTOCALIB_UPD
  | RESUME_UPD
  | PAUSE_UPD
  /-- Any message type the handlers have no case for. -/
  | OTHER
  deriving DecidableEq, Repr

/-- Publish/subscribe message `ps_msg_t`; a self-directed message sent with
`m_tell` has no topic. -/
structure ps_msg_t where
  type : ps_msg_type
  topic : Option SubTopic
  message : Message
  deriving DecidableEq, Repr

/-- Message `msg_t` handed to a receive handler: a file-descriptor event
(`is_pubsub` false) or a publish/subscribe message (`is_pubsub` true). -/
inductive msg_t
  | fd_msg (fd : Int)
  | ps_msg (p : ps_msg_t)
  deriving DecidableEq, Repr

/-- The fields of the global `conf` that the module reads. -/
structure Conf where
  no_backlight : Int
  no_gamma : Int
  no_auto_calib : Int
  no_keyboard_bl : Int
  no_smooth_backlight : Int
  backlight_trans_step : ℚ
  backlight_trans_timeout : Int
  shutter_threshold : ℚ
  num_captures : Int
  timeout : List (List Int)

/-- The fields of the global `state` that the module reads and writes. -/
structure State where
  ambient_br : ℚ
  current_bl_pct : ℚ
  current_kbd_pct : ℚ
  fit_parameters : List (List ℚ)
  ac_state : Int
  time : Int
  in_event : Int
  display_state : Int

/-- Globals, file-level statics and the runtime's view of the module. -/
structure Mod where
  conf : Conf
  state : State
  sensor_available : Int
  max_kbd_backlight : Int
  bl_fd : Int
  /-- Handlers installed by `m_become`, most recent first. -/
  recvs : List Recv
  /-- File descriptors registered with `m_register_fd`. -/
  fds : List Int
  /-- Messages sent with `m_tell(self(), ...)`, oldest first. -/
  mailbox : List state_upd
  /-- Trace of observable actions, oldest first. -/
  out : List Effect

/-- Replies of the outside world to the calls of one handler run. -/
structure Bus where
  /-- Return code of `Sensor.Capture`. -/
  capture_r : Int
  /-- Samples written to `intensity` by a successful `Sensor.Capture`. -/
  intensity : List ℚ
  /-- Return code of `Backlight.SetAll`. -/
  setall_r : Int
  /-- Boolean reply `ok` of `Backlight.SetAll`. -/
  setall_ok : Int
  /-- Return code of `KbdBacklight.SetBrightness`. -/
  kbd_set_r : Int
  /-- Return code of `KbdBacklight.GetMaxBrightness`. -/
  kbd_max_r : Int
  /-- Reply of `KbdBacklight.GetMaxBrightness`. -/
  kbd_max : Int
  /-- Return code of `Sensor.IsAvailable`. -/
  avail_r : Int
  /-- Boolean reply of `Sensor.IsAvailable`. -/
  avail : Int
  /-- File descriptor returned by `start_timer`. -/
  timer_fd : Int
  /-- Coefficients the regression routine computes for a power source. -/
  fit : Int → List ℚ
  /-- Return code of `get_property(UPower.OnBattery)`. -/
  on_battery_r : Int
  /-- Boolean value of the `UPower.OnBattery` property. -/
  on_battery : Int

/-! ## Helpers of the embedding -/

/-- Read `tbl[i][j]` of a two-dimensional C array; `none` outside the array. -/
def idx2 {α : Type} (tbl : List (List α)) (i j : Int) : Option α :=
  if 0 ≤ i ∧ 0 ≤ j then
    match tbl.get? i.toNat with
    | some row => row.get? j.toNat
    | none => none
  else none

/-- C logical negation `!x` on an `int`. -/
def lnot (x : Int) : Int := if x = 0 then 1 else 0

/-- Append one action to the trace. -/
def emit (e : Effect) (m : Mod) : Mod := { m with out := m.out ++ [e] }

/-- The percentage that a backlight hardware write carries. -/
def Effect.backlight_pct : Effect → Option ℚ
  | Effect.SetAll pct _ _ _ => some pct
  | _ => none

/-- The level that a keyboard hardware write carries. -/
def Effect.keyboard_level : Effect → Option ℚ
  | Effect.SetBrightness level => some level
  | _ => none

/-- The topic and value that a publication carries. -/
def Effect.published : Effect → Option (Topic × ℚ)
  | Effect.Pub t v => some (t, v)
  | _ => none

/-- The timer arming (`set_timeout` or `reset_timer`) that an action is. -/
def Effect.arming : Effect → Option Effect
  | Effect.SetTimeout s n fd fl => some (Effect.SetTimeout s n fd fl)
  | Effect.ResetTimer fd o n => some (Effect.ResetTimer fd o n)
  | _ => none

/-- The backlight hardware writes of a trace: the percentage of each `SetAll`. -/
def backlight_writes (es : List Effect) : List ℚ := es.filterMap Effect.backlight_pct

/-- The keyboard hardware writes of a trace: the level of each
`SetBrightness`. -/
def keyboard_writes (es : List Effect) : List ℚ := es.filterMap Effect.keyboard_level

/-- The publications of a trace. -/
def publications (es : List Effect) : List (Topic × ℚ) := es.filterMap Effect.published

/-- The sensor call (`Sensor.Capture`) that an action is. -/
def Effect.sensor_call : Effect → Option Effect
  | Effect.Capture n => some (Effect.Capture n)
  | _ => none

/-- The sensor calls of a trace. -/
def sensor_calls (es : List Effect) : List Effect := es.filterMap Effect.sensor_call

/-- The timer armings of a trace. -/
def timer_armings (es : List Effect) : List Effect := es.filterMap Effect.arming

/-! ## External collaborators -/

/-- Modelled from the spec: `clamp(value, max, min)` of the absent
`my_math.h`, the value clamped to `[min, max]`. -/
def clamp (value max min : ℚ) : ℚ :=
  if value > max then max else if value < min then min else value

/-- Modelled from the spec: `compute_average(intensity, num)` of the absent
`my_math.h`, the arithmetic mean of the first `num` samples. -/
def compute_average (intensity : List ℚ) (num : Int) : ℚ :=
  (intensity.take num.toNat).sum / (num : ℚ)

/-- Modelled from the spec: `polynomialfit(s)` of the absent `my_math.h`
replaces the coefficient triple of power source `s` by the regression result
and leaves the other power source untouched. -/
def polynomialfit (b : Bus) (s : Int) (m : Mod) : Mod :=
  if 0 ≤ s then
    { m with state := { m.state with
        fit_parameters := m.state.fit_parameters.set s.toNat (b.fit s) } }
  else m

/-- Modelled from the spec: `M_PUB(topic, msg)` of the absent actor runtime,
a publication of `msg.curr` on `topic`. -/
def M_PUB (t : Topic) (curr : ℚ) (m : Mod) : Mod := emit (Effect.Pub t curr) m

/-- Modelled from the spec: `m_become(paused)` of the absent actor runtime
pushes the paused handler on the handler stack. -/
def m_become (r : Recv) (m : Mod) : Mod := { m with recvs := r :: m.recvs }

/-- Modelled from the spec: `m_unbecome()` of the absent actor runtime pops
the handler stack; nothing happens when only the default handler is left. -/
def m_unbecome (m : Mod) : Mod := { m with recvs := m.recvs.tail }

/-- Modelled from the spec: `m_tell(self(), msg, ...)` of the absent actor
runtime queues a self-directed message. -/
def m_tell (msg : state_upd) (m : Mod) : Mod := { m with mailbox := m.mailbox ++ [msg] }

/-- Modelled from the spec: `m_register_fd(fd, ...)` of the absent actor
runtime; registering a registered descriptor is a no-op. -/
def m_register_fd (fd : Int) (m : Mod) : Mod :=
  if fd ∈ m.fds then m else { m with fds := fd :: m.fds }

/-- Modelled from the spec: `m_deregister_fd(fd)` of the absent actor
runtime; releasing an absent descriptor is a no-op. -/
def m_deregister_fd (fd : Int) (m : Mod) : Mod :=
  { m with fds := m.fds.filter (fun x => x ≠ fd) }

/-- Lifecycle state: ACTIVE when the default handler `receive` is current,
PAUSED when `receive_paused` is. -/
def lifecycle (m : Mod) : Lifecycle :=
  match m.recvs with
  | [] => Lifecycle.ACTIVE
  | Recv.paused :: _ => Lifecycle.PAUSED

/-- Whether the timer descriptor `bl_fd` is registered with the runtime. -/
def timer_registered (m : Mod) : Bool := decide (m.bl_fd ∈ m.fds)

/-! ## The module, function by function -/

/-- Source `evaluate`: the module starts when backlight is enabled and
either gamma is disabled or the time bucket is known. -/
def evaluate (m : Mod) : Bool :=
  decide (m.conf.no_backlight = 0) && (decide (m.conf.no_gamma ≠ 0) || decide (m.state.time ≠ -1))

/-- Source `get_current_timeout`. -/
def get_current_timeout (m : Mod) : Option Int :=
  if m.state.in_event ≠ 0 then
    idx2 m.conf.timeout m.state.ac_state IN_EVENT
  else
    idx2 m.conf.timeout m.state.ac_state m.state.time

/-- Source `init_kbd_backlight`: `max_kbd_backlight` is written by a
successful `GetMaxBrightness` call only. -/
def init_kbd_backlight (b : Bus) (m : Mod) : Mod :=
  let m1 := emit Effect.GetMaxBrightness m
  if b.kbd_max_r = 0 then { m1 with max_kbd_backlight := b.kbd_max } else m1

/-- Source `is_sensor_available`: returns `r == 0 && available`. -/
def is_sensor_available (b : Bus) (m : Mod) : Int × Mod :=
  let m1 := emit Effect.IsAvailable m
  (if b.avail_r = 0 ∧ b.avail ≠ 0 then 1 else 0, m1)

/-- Source `capture_frames_brightness`: returns the return code of the
`Capture` call; on success stores and publishes the average. -/
def capture_frames_brightness (b : Bus) (m : Mod) : Int × Mod :=
  let m1 := emit (Effect.Capture m.conf.num_captures) m
  if b.capture_r = 0 then
    let m2 := { m1 with state := { m1.state with
                  ambient_br := compute_average b.intensity m1.conf.num_captures } }
    (b.capture_r, M_PUB Topic.CurrentAmbientBr m2.state.ambient_br m2)
  else (b.capture_r, m1)

/-- Source `set_backlight_level`. -/
def set_backlight_level (b : Bus) (pct : ℚ) (is_smooth : Int) (step : ℚ) (timeout : Int)
    (m : Mod) : Mod :=
  let m1 := emit (Effect.SetAll pct is_smooth step timeout) m
  if b.setall_r = 0 ∧ b.setall_ok ≠ 0 then
    let m2 := { m1 with state := { m1.state with current_bl_pct := pct } }
    M_PUB Topic.CurrentBlPct pct m2
  else m1

/-- Source `set_keyboard_level`. -/
def set_keyboard_level (b : Bus) (level : ℚ) (m : Mod) : Mod :=
  if m.max_kbd_backlight > 0 ∧ m.conf.no_keyboard_bl = 0 then
    let m1 := { m with state := { m.state with current_kbd_pct := 1 - level } }
    let m2 := emit (Effect.SetBrightness (m1.state.current_kbd_pct * (m1.max_kbd_backlight : ℚ))) m1
    if b.kbd_set_r = 0 then
      M_PUB Topic.CurrentKbdPct m2.state.current_kbd_pct m2
    else m2
  else m

/-- Source `set_new_backlight`: `y = a0 + a1 x + a2 x^2`, clamped. -/
def set_new_backlight (b : Bus) (perc : ℚ) (m : Mod) : Option Mod := do
  let a0 ← idx2 m.state.fit_parameters m.state.ac_state 0
  let a1 ← idx2 m.state.fit_parameters m.state.ac_state 1
  let a2 ← idx2 m.state.fit_parameters m.state.ac_state 2
  let y := a0 + a1 * perc + a2 * perc ^ 2
  let new_br_pct := clamp y 1 0
  let m1 := set_backlight_level b new_br_pct (lnot m.conf.no_smooth_backlight)
              m.conf.backlight_trans_step m.conf.backlight_trans_timeout m
  pure (set_keyboard_level b new_br_pct m1)

/-- Source `do_capture`. -/
def do_capture (b : Bus) (reset_timer : Bool) (m : Mod) : Option Mod := do
  let cap := capture_frames_brightness b m
  let m1 : Mod := cap.2
  let m2 ←
    if cap.1 = 0 then
      if m1.state.ambient_br > m1.conf.shutter_threshold then
        set_new_backlight b (m1.state.ambient_br * 10) m1
      else pure m1
    else pure m1
  if reset_timer then
    let t ← get_current_timeout m2
    pure (emit (Effect.SetTimeout t 0 m2.bl_fd 0) m2)
  else pure m2

/-- Source `pause_mod`. -/
def pause_mod (m : Mod) : Mod := m_tell state_upd.PAUSE_UPD (m_become Recv.paused m)

/-- Source `resume_mod`. -/
def resume_mod (m : Mod) : Mod := m_tell state_upd.RESUME_UPD (m_unbecome m)

/-- The subscriptions of `init`, in source order. -/
def init_subscriptions : List SubTopic :=
  [SubTopic.up_topic, SubTopic.display_topic, SubTopic.time_topic, SubTopic.evt_topic,
   SubTopic.interface_bl_to_topic, SubTopic.interface_bl_capture, SubTopic.interface_bl_curve,
   SubTopic.interface_bl_autocalib]

/-- Source `init`. -/
def init (b : Bus) (m : Mod) : Mod :=
  let m1 := polynomialfit b ON_BATTERY (polynomialfit b ON_AC m)
  let m2 := init_subscriptions.foldl (fun acc t => emit (Effect.Subscribe t) acc) m1
  let m3 := emit Effect.AddMatch m2
  let m4 := init_kbd_backlight b m3
  let probe := is_sensor_available b m4
  let m6 : Mod := { probe.2 with sensor_available := probe.1 }
  let m7 : Mod := { emit (Effect.StartTimer 0 1) m6 with bl_fd := b.timer_fd }
  if m7.sensor_available ≠ 0 ∧ m7.conf.no_auto_calib = 0 then
    m_register_fd m7.bl_fd m7
  else
    let m8 : Mod := if m7.sensor_available = 0 then m_become Recv.paused m7 else m7
    if m8.conf.no_auto_calib ≠ 0 then m_become Recv.paused m8 else m8

/-- The module before `init` runs: zero-initialised statics, only the default
handler, no registered descriptor, empty mailbox and trace. -/
def Mod.fresh (c : Conf) (s : State) : Mod :=
  { conf := c, state := s, sensor_available := 0, max_kbd_backlight := 0, bl_fd := 0,
    recvs := [], fds := [], mailbox := [], out := [] }

/-- Source `upower_callback`: arm the timer to expire after one nanosecond. -/
def upower_callback (m : Mod) : Mod := emit (Effect.SetTimeout 0 1 m.bl_fd 0) m

/-- Source `interface_calibrate_callback`. -/
def interface_calibrate_callback (b : Bus) (m : Mod) : Option Mod := do_capture b false m

/-- Source `interface_autocalib_callback`. -/
def interface_autocalib_callback (m : Mod) : Mod :=
  if m.conf.no_auto_calib ≠ 0 then pause_mod m else resume_mod m

/-- Source `interface_curve_callback`. -/
def interface_curve_callback (b : Bus) (s : Int) (m : Mod) : Mod := polynomialfit b s m

/-- Source `interface_timeout_callback`. -/
def interface_timeout_callback (old_val : Int) (m : Mod) : Option Mod := do
  let t ← get_current_timeout m
  pure (emit (Effect.ResetTimer m.bl_fd old_val t) m)

/-- Source `dimmed_callback`. -/
def dimmed_callback (m : Mod) : Mod :=
  if m.state.display_state ≠ 0 then pause_mod m else resume_mod m

/-- Source `time_callback`. -/
def time_callback (old_val : Int) (is_event : Int) (m : Mod) : Option Mod := do
  let old_timeout ←
    if is_event = 0 then
      idx2 m.conf.timeout m.state.ac_state old_val
    else
      idx2 m.conf.timeout m.state.ac_state
        (if m.state.in_event ≠ 0 then m.state.time else IN_EVENT)
  let t ← get_current_timeout m
  pure (emit (Effect.ResetTimer m.bl_fd old_timeout t) m)

/-- Source `on_sensor_change`. -/
def on_sensor_change (b : Bus) (m : Mod) : Mod :=
  let probe := is_sensor_available b m
  let new_sensor_avail := probe.1
  let m1 : Mod := probe.2
  if new_sensor_avail ≠ m1.sensor_available then
    let m2 : Mod := { m1 with sensor_available := new_sensor_avail }
    if m2.sensor_available ≠ 0 then resume_mod m2 else pause_mod m2
  else m1

/-- Source `receive`, the handler of the ACTIVE state.  `strcmp` on the absent
topic of a self-directed message is undefined. -/
def receive (b : Bus) (msg : msg_t) (m : Mod) : Option Mod :=
  match msg with
  | msg_t.fd_msg fd => do_capture b true (emit (Effect.Read fd) m)
  | msg_t.ps_msg p =>
    if p.type = ps_msg_type.USER then
      match p.message with
      | Message.UPOWER_UPDATE _ _ => some (upower_callback m)
      | Message.DISPLAY_UPDATE => some (dimmed_callback m)
      | Message.TIME_UPDATE old =>
        match p.topic with
        | some t => time_callback old (if t = SubTopic.evt_topic then 1 else 0) m
        | none => none
      | Message.TIMEOUT_UPDATE old => interface_timeout_callback old m
      | Message.DO_CAPTURE => interface_calibrate_callback b m
      | Message.CURVE_UPDATE st => some (interface_curve_callback b st m)
      | Message.AUTOCALIB_UPD => some (interface_autocalib_callback m)
      | Message.RESUME_UPD => some (m_register_fd m.bl_fd m)
      | _ => some m
    else some m

/-- Source `receive_paused`, the handler of the PAUSED state.  It reads
`msg->ps_msg->type` without testing `is_pubsub`; on a file-descriptor message
that read has no defined result. -/
def receive_paused (b : Bus) (msg : msg_t) (m : Mod) : Option Mod :=
  match msg with
  | msg_t.fd_msg _ => none
  | msg_t.ps_msg p =>
    if p.type = ps_msg_type.USER then
      match p.message with
      | Message.DISPLAY_UPDATE => some (dimmed_callback m)
      | Message.CURVE_UPDATE st => some (interface_curve_callback b st m)
      | Message.DO_CAPTURE =>
        if m.state.display_state = 0 ∧ m.sensor_available ≠ 0 then
          interface_calibrate_callback b m
        else some m
      | Message.AUTOCALIB_UPD => some (interface_autocalib_callback m)
      | Message.PAUSE_UPD => some (m_deregister_fd m.bl_fd m)
      | _ => some m
    else some m

/-- Source `on_upower_change` (upower.c): re-read `OnBattery` into
`state.ac_state` and publish the change when there is one.  Returns the
message published, if any. -/
def on_upower_change (b : Bus) (m : Mod) : Option Message × Mod :=
  let old_ac_state := m.state.ac_state
  let m1 : Mod :=
    if b.on_battery_r = 0 then { m with state := { m.state with ac_state := b.on_battery } }
    else m
  if b.on_battery_r = 0 ∧ old_ac_state ≠ m1.state.ac_state then
    (some (Message.UPOWER_UPDATE old_ac_state m1.state.ac_state),
      emit (Effect.PubAcState old_ac_state m1.state.ac_state) m1)
  else (none, m1)

/-! ## The actor runtime around the module -/

/-- Modelled from the spec: the runtime hands a message to the handler on top
of the handler stack, `receive` when the stack is empty. -/
def dispatch (b : Bus) (msg : msg_t) (m : Mod) : Option Mod :=
  match m.recvs with
  | [] => receive b msg m
  | Recv.paused :: _ => receive_paused b msg m

/-- A user message published on a topic. -/
def user_msg (t : SubTopic) (msg : Message) : msg_t :=
  msg_t.ps_msg { type := ps_msg_type.USER, topic := some t, message := msg }

/-- The message that `m_tell(self(), &pause_msg, ...)` or
`m_tell(self(), &resume_msg, ...)` delivers. -/
def self_msg (u : state_upd) : msg_t :=
  msg_t.ps_msg { type := ps_msg_type.USER, topic := none,
                 message := match u with
                   | state_upd.PAUSE_UPD => Message.PAUSE_UPD
                   | state_upd.RESUME_UPD => Message.RESUME_UPD }

/-- Deliver the oldest self-directed message to the handler current now;
nothing happens on an empty mailbox. -/
def deliver (b : Bus) (m : Mod) : Option Mod :=
  match m.mailbox with
  | [] => some m
  | u :: rest => dispatch b (self_msg u) { m with mailbox := rest }

/-- Deliver `n` self-directed messages, oldest first. -/
def deliver_n (b : Bus) : Nat → Mod → Option Mod
  | 0, m => some m
  | n + 1, m => (deliver b m).bind (deliver_n b n)

/-- Deliver every pending self-directed message, oldest first. -/
def drain (b : Bus) (m : Mod) : Option Mod := deliver_n b m.mailbox.length m

/-- A call of `pause_mod()` followed by the delivery of its confirmation. -/
def pause_step (b : Bus) (m : Mod) : Option Mod := drain b (pause_mod m)

/-- A call of `resume_mod()` followed by the delivery of its confirmation. -/
def resume_step (b : Bus) (m : Mod) : Option Mod := drain b (resume_mod m)

/-- Number of registrations of the timer descriptor `bl_fd`. -/
def timer_registrations (m : Mod) : Nat := m.fds.count m.bl_fd

/-- What the delivery of a confirmation does, by the handler current at
delivery: `receive` registers the timer on `RESUME_UPD` and has no case for
`PAUSE_UPD`; `receive_paused` releases it on `PAUSE_UPD` and has no case for
`RESUME_UPD`. -/
def confirm (u : state_upd) (m : Mod) : Mod :=
  match m.recvs, u with
  | [], state_upd.RESUME_UPD => m_register_fd m.bl_fd m
  | [], state_upd.PAUSE_UPD => m
  | _ :: _, state_upd.PAUSE_UPD => m_deregister_fd m.bl_fd m
  | _ :: _, state_upd.RESUME_UPD => m

/-- States reachable from `init` by calls of `pause_mod()` and `resume_mod()`
and by deliveries of pending confirmations, in any order. -/
inductive Reachable : Mod → Prop
  | init (b : Bus) (c : Conf) (s : State) : Reachable (init b (Mod.fresh c s))
  | pause (m : Mod) : Reachable m → Reachable (pause_mod m)
  | resume (m : Mod) : Reachable m → Reachable (resume_mod m)
  | deliver (b : Bus) (m m' : Mod) : Reachable m → deliver b m = some m' → Reachable m'

/-- Invariant of the reachable states: the timer is registered at most once;
a PAUSED machine whose timer is still registered has a pause confirmation
pending; an ACTIVE machine whose timer is not registered has a resume
confirmation pending. -/
def Inv (m : Mod) : Prop :=
  timer_registrations m ≤ 1
  ∧ (m.recvs ≠ [] → m.bl_fd ∈ m.fds → state_upd.PAUSE_UPD ∈ m.mailbox)
  ∧ (m.recvs = [] → m.bl_fd ∉ m.fds → state_upd.RESUME_UPD ∈ m.mailbox)

/-- States reachable from `m0` by display-dim change events (the display
module stores a different `display_state` and publishes `DISPLAY_UPDATE`),
auto-calibration toggles (the interface flips `conf.no_auto_calib` and
publishes `AUTOCALIB_UPD`), sensor-availability notifications and deliveries of
pending confirmations, in any order. -/
inductive EventReach (m0 : Mod) : Mod → Prop
  | start : EventReach m0 m0
  | display (b : Bus) (new_state : Int) (m m' : Mod) : EventReach m0 m →
      new_state ≠ m.state.display_state →
      dispatch b (user_msg SubTopic.display_topic Message.DISPLAY_UPDATE)
        { m with state := { m.state with display_state := new_state } } = some m' →
      EventReach m0 m'
  | autocalib (b : Bus) (new_flag : Int) (m m' : Mod) : EventReach m0 m →
      (new_flag = 0 ↔ m.conf.no_auto_calib ≠ 0) →
      dispatch b (user_msg SubTopic.interface_bl_autocalib Message.AUTOCALIB_UPD)
        { m with conf := { m.conf with no_auto_calib := new_flag } } = some m' →
      EventReach m0 m'
  | sensor (b : Bus) (m : Mod) : EventReach m0 m → EventReach m0 (on_sensor_change b m)
  | deliver (b : Bus) (m m' : Mod) : EventReach m0 m → deliver b m = some m' →
      EventReach m0 m'

/-- Number of pausing conditions that hold: display dimmed, sensor
unavailable, auto-calibration disabled. -/
def pausing_conditions (m : Mod) : Nat :=
  (if m.state.display_state ≠ 0 then 1 else 0)
  + (if m.sensor_available = 0 then 1 else 0)
  + (if m.conf.no_auto_calib ≠ 0 then 1 else 0)

/-- Invariant of the event-reachable states: the cache of the sensor probe is
0 or 1 and at least one paused handler is stacked per pausing condition. -/
def EventInv (m : Mod) : Prop :=
  (m.sensor_available = 0 ∨ m.sensor_available = 1)
  ∧ pausing_conditions m ≤ m.recvs.length

/-! ## Auxiliary definitions for the statements -/

/-- The apply step of `set_new_backlight` once the target `v` is computed:
the backlight write followed by the keyboard write. -/
def apply_level (b : Bus) (v : ℚ) (m : Mod) : Mod :=
  set_keyboard_level b v
    (set_backlight_level b v (lnot m.conf.no_smooth_backlight) m.conf.backlight_trans_step
      m.conf.backlight_trans_timeout m)

/-- The final step of `do_capture`: re-arm the timer when asked to. -/
def rearm (reset_timer : Bool) (m : Mod) : Option Mod :=
  if reset_timer then
    (get_current_timeout m).bind (fun t => some (emit (Effect.SetTimeout t 0 m.bl_fd 0) m))
  else some m

/-- What a capture cycle leaves alone before the timer is re-armed, and the
one sensor call it adds to the trace. -/
def CycleFrame (n : Int) (m2 m : Mod) : Prop :=
  m2.conf = m.conf ∧ m2.bl_fd = m.bl_fd ∧ m2.fds = m.fds ∧ m2.recvs = m.recvs
  ∧ m2.mailbox = m.mailbox ∧ m2.sensor_available = m.sensor_available
  ∧ m2.state.ac_state = m.state.ac_state ∧ m2.state.time = m.state.time
  ∧ m2.state.in_event = m.state.in_event ∧ m2.state.display_state = m.state.display_state
  ∧ m2.state.fit_parameters = m.state.fit_parameters
  ∧ sensor_calls m2.out = sensor_calls m.out ++ [Effect.Capture n]
  ∧ timer_armings m2.out = timer_armings m.out

/-- The backlight write is confirmed by the hardware: `!r && ok`. -/
def Bus.bl_ok (b : Bus) : Prop := b.setall_r = 0 ∧ b.setall_ok ≠ 0

instance (b : Bus) : Decidable b.bl_ok := by unfold Bus.bl_ok; infer_instance

/-- The keyboard feature is enabled: `max_kbd_backlight > 0 && !conf.no_keyboard_bl`. -/
def Mod.kbd_enabled (m : Mod) : Prop := m.max_kbd_backlight > 0 ∧ m.conf.no_keyboard_bl = 0

instance (m : Mod) : Decidable m.kbd_enabled := by unfold Mod.kbd_enabled; infer_instance

/-- The quadratic of `set_new_backlight` at `x`, clamped to `[0, 1]`. -/
def target (a0 a1 a2 x : ℚ) : ℚ := clamp (a0 + a1 * x + a2 * x ^ 2) 1 0

/-! ## Example inputs -/

/-- A timeout table with every slot populated: rows AC and BATTERY, columns
DAY, NIGHT and IN_EVENT. -/
def ex_timeout : List (List Int) := [[600, 2700, 300], [1200, 5400, 600]]

/-- A configuration with shutter threshold 0.05 and five samples per capture. -/
def ex_conf : Conf :=
  { no_backlight := 0, no_gamma := 0, no_auto_calib := 0, no_keyboard_bl := 0,
    no_smooth_backlight := 0, backlight_trans_step := 1 / 20, backlight_trans_timeout := 30,
    shutter_threshold := 1 / 20, num_captures := 5, timeout := ex_timeout }

/-- A state on AC with AC coefficients `(0, 0, 0.01)`, by day, outside events,
display not dimmed, backlight at 0.6 and keyboard at 0.4. -/
def ex_state : State :=
  { ambient_br := 3 / 10, current_bl_pct := 3 / 5, current_kbd_pct := 2 / 5,
    fit_parameters := [[0, 0, 1 / 100], [1 / 10, 1 / 20, 0]],
    ac_state := 0, time := 0, in_event := 0, display_state := 0 }

/-- A running module with a keyboard of maximum level 3. -/
def ex_mod : Mod :=
  { conf := ex_conf, state := ex_state, sensor_available := 1, max_kbd_backlight := 3,
    bl_fd := 7, recvs := [], fds := [7], mailbox := [], out := [] }

/-- A bus on which every call succeeds and the sensor returns five samples
of average 0.5. -/
def ex_bus : Bus :=
  { capture_r := 0, intensity := [1 / 2, 1 / 2, 2 / 5, 3 / 5, 1 / 2], setall_r := 0, setall_ok := 1,
    kbd_set_r := 0, kbd_max_r := 0, kbd_max := 3, avail_r := 0, avail := 1, timer_fd := 7,
    fit := fun _ => [0, 0, 1 / 100], on_battery_r := 0, on_battery := 1 }

/-- The bus of `ex_bus` with five samples of average 0.03. -/
def ex_bus_clogged : Bus :=
  { ex_bus with intensity := [3 / 100, 1 / 50, 1 / 25, 3 / 100, 3 / 100] }

/-- The bus of `ex_bus` with a failing `Sensor.Capture` call. -/
def ex_bus_capture_fails : Bus := { ex_bus with capture_r := -1 }

/-- The bus of `ex_bus` with a failing `Backlight.SetAll` call. -/
def ex_bus_setall_fails : Bus := { ex_bus with setall_r := -1 }

/-- The bus of `ex_bus` with a failing `KbdBacklight.SetBrightness` call. -/
def ex_bus_kbd_fails : Bus := { ex_bus with kbd_set_r := -1 }

/-- The module of `ex_mod` while PAUSED: one paused handler, timer released. -/
def ex_paused : Mod := { ex_mod with recvs := [Recv.paused], fds := [] }

/-- The module of `ex_mod` by night during an event: the timer in effect is
`timeout[AC][IN_EVENT] = 300`. -/
def ex_mod_night_in_event : Mod :=
  { ex_mod with state := { ex_state with time := 1, in_event := 1 } }

/-- The module of `ex_mod` by day during an event, the state right before the
time bucket changes to night. -/
def ex_mod_day_in_event : Mod :=
  { ex_mod with state := { ex_state with time := 0, in_event := 1 } }

/-- The state of `ex_state` with the display already dimmed. -/
def ex_state_dimmed : State := { ex_state with display_state := 1 }

/-- The bus of `ex_bus` with a sensor probe that reports no sensor. -/
def ex_bus_no_sensor : Bus := { ex_bus with avail := 0 }

/-- A run from `init` (sensor present, auto-calibration enabled, display on):
the sensor is lost. -/
def ex_run_sensor_lost : Mod :=
  on_sensor_change ex_bus_no_sensor (init ex_bus (Mod.fresh ex_conf ex_state))

/-- The run continues: the display is dimmed. -/
def ex_run_dimmed : Mod :=
  dimmed_callback
    { ex_run_sensor_lost with state := { ex_run_sensor_lost.state with display_state := 1 } }

/-- The run continues: the sensor is back while the display is still dimmed. -/
def ex_run_sensor_back : Mod := on_sensor_change ex_bus ex_run_dimmed

/-- The run ends: the display is no longer dimmed. -/
def ex_run_undimmed : Mod :=
  dimmed_callback
    { ex_run_sensor_back with state := { ex_run_sensor_back.state with display_state := 0 } }

/-! ## Lemmas on the trace and on the apply cycle -/

theorem target_bounds (a0 a1 a2 x : ℚ) : 0 ≤ target a0 a1 a2 x ∧ target a0 a1 a2 x ≤ 1 := by
  unfold target clamp
  split_ifs with h1 h2
  · exact ⟨zero_le_one, le_refl _⟩
  · exact ⟨le_refl _, zero_le_one⟩
  · exact ⟨not_lt.mp h2, not_lt.mp h1⟩

theorem set_new_backlight_eq (b : Bus) (perc : ℚ) (m : Mod) (a0 a1 a2 : ℚ)
    (h0 : idx2 m.state.fit_parameters m.state.ac_state 0 = some a0)
    (h1 : idx2 m.state.fit_parameters m.state.ac_state 1 = some a1)
    (h2 : idx2 m.state.fit_parameters m.state.ac_state 2 = some a2) :
    set_new_backlight b perc m = some (apply_level b (target a0 a1 a2 perc) m) := by
  simp [set_new_backlight, h0, h1, h2, apply_level, target]

theorem apply_level_frame (b : Bus) (v : ℚ) (m : Mod) :
    (apply_level b v m).conf = m.conf
    ∧ (apply_level b v m).sensor_available = m.sensor_available
    ∧ (apply_level b v m).max_kbd_backlight = m.max_kbd_backlight
    ∧ (apply_level b v m).bl_fd = m.bl_fd
    ∧ (apply_level b v m).recvs = m.recvs
    ∧ (apply_level b v m).fds = m.fds
    ∧ (apply_level b v m).mailbox = m.mailbox
    ∧ (apply_level b v m).state.ambient_br = m.state.ambient_br
    ∧ (apply_level b v m).state.fit_parameters = m.state.fit_parameters
    ∧ (apply_level b v m).state.ac_state = m.state.ac_state
    ∧ (apply_level b v m).state.time = m.state.time
    ∧ (apply_level b v m).state.in_event = m.state.in_event
    ∧ (apply_level b v m).state.display_state = m.state.display_state := by
  by_cases hs : b.setall_r = 0 ∧ b.setall_ok ≠ 0 <;>
  by_cases hk : m.max_kbd_backlight > 0 ∧ m.conf.no_keyboard_bl = 0 <;>
  by_cases hr : b.kbd_set_r = 0 <;>
  simp [apply_level, set_keyboard_level, set_backlight_level, M_PUB, emit, hs, hk, hr]

theorem apply_level_bl (b : Bus) (v : ℚ) (m : Mod) :
    (apply_level b v m).state.current_bl_pct = if b.bl_ok then v else m.state.current_bl_pct := by
  by_cases hs : b.setall_r = 0 ∧ b.setall_ok ≠ 0 <;>
  by_cases hk : m.max_kbd_backlight > 0 ∧ m.conf.no_keyboard_bl = 0 <;>
  by_cases hr : b.kbd_set_r = 0 <;>
  simp [apply_level, set_keyboard_level, set_backlight_level, M_PUB, emit, hs, hk, hr, Bus.bl_ok]

theorem apply_level_kbd (b : Bus) (v : ℚ) (m : Mod) :
    (apply_level b v m).state.current_kbd_pct
      = if m.kbd_enabled then 1 - v else m.state.current_kbd_pct := by
  by_cases hs : b.setall_r = 0 ∧ b.setall_ok ≠ 0 <;>
  by_cases hk : m.max_kbd_backlight > 0 ∧ m.conf.no_keyboard_bl = 0 <;>
  by_cases hr : b.kbd_set_r = 0 <;>
  simp [apply_level, set_keyboard_level, set_backlight_level, M_PUB, emit, hs, hk, hr,
    Mod.kbd_enabled]

theorem apply_level_backlight_writes (b : Bus) (v : ℚ) (m : Mod) :
    backlight_writes (apply_level b v m).out = backlight_writes m.out ++ [v] := by
  by_cases hs : b.setall_r = 0 ∧ b.setall_ok ≠ 0 <;>
  by_cases hk : m.max_kbd_backlight > 0 ∧ m.conf.no_keyboard_bl = 0 <;>
  by_cases hr : b.kbd_set_r = 0 <;>
  simp [apply_level, set_keyboard_level, set_backlight_level, M_PUB, emit, hs, hk, hr,
    backlight_writes, Effect.backlight_pct, List.filterMap_append]

theorem apply_level_keyboard_writes (b : Bus) (v : ℚ) (m : Mod) :
    keyboard_writes (apply_level b v m).out = keyboard_writes m.out ++
      (if m.kbd_enabled then [(1 - v) * (m.max_kbd_backlight : ℚ)] else []) := by
  by_cases hs : b.setall_r = 0 ∧ b.setall_ok ≠ 0 <;>
  by_cases hk : m.max_kbd_backlight > 0 ∧ m.conf.no_keyboard_bl = 0 <;>
  by_cases hr : b.kbd_set_r = 0 <;>
  simp [apply_level, set_keyboard_level, set_backlight_level, M_PUB, emit, hs, hk, hr,
    keyboard_writes, Effect.keyboard_level, List.filterMap_append, Mod.kbd_enabled]

theorem apply_level_publications (b : Bus) (v : ℚ) (m : Mod) :
    publications (apply_level b v m).out = publications m.out ++
      ((if b.bl_ok then [(Topic.CurrentBlPct, v)] else []) ++
       (if m.kbd_enabled ∧ b.kbd_set_r = 0 then [(Topic.CurrentKbdPct, 1 - v)] else [])) := by
  by_cases hs : b.setall_r = 0 ∧ b.setall_ok ≠ 0 <;>
  by_cases hk : m.max_kbd_backlight > 0 ∧ m.conf.no_keyboard_bl = 0 <;>
  by_cases hr : b.kbd_set_r = 0 <;>
  simp [apply_level, set_keyboard_level, set_backlight_level, M_PUB, emit, hs, hk, hr,
    publications, Effect.published, List.filterMap_append, Mod.kbd_enabled, Bus.bl_ok]

theorem get_current_timeout_congr (m m' : Mod) (hc : m'.conf = m.conf)
    (ha : m'.state.ac_state = m.state.ac_state) (ht : m'.state.time = m.state.time)
    (he : m'.state.in_event = m.state.in_event) :
    get_current_timeout m' = get_current_timeout m := by
  simp [get_current_timeout, hc, ha, ht, he]

theorem capture_ok (b : Bus) (m : Mod) (hcap : b.capture_r = 0) :
    (capture_frames_brightness b m).1 = 0
    ∧ (capture_frames_brightness b m).2.conf = m.conf
    ∧ (capture_frames_brightness b m).2.max_kbd_backlight = m.max_kbd_backlight
    ∧ (capture_frames_brightness b m).2.bl_fd = m.bl_fd
    ∧ (capture_frames_brightness b m).2.state.ambient_br
        = compute_average b.intensity m.conf.num_captures
    ∧ (capture_frames_brightness b m).2.state.current_bl_pct = m.state.current_bl_pct
    ∧ (capture_frames_brightness b m).2.state.current_kbd_pct = m.state.current_kbd_pct
    ∧ (capture_frames_brightness b m).2.state.fit_parameters = m.state.fit_parameters
    ∧ (capture_frames_brightness b m).2.state.ac_state = m.state.ac_state
    ∧ (capture_frames_brightness b m).2.state.time = m.state.time
    ∧ (capture_frames_brightness b m).2.state.in_event = m.state.in_event
    ∧ backlight_writes (capture_frames_brightness b m).2.out = backlight_writes m.out
    ∧ keyboard_writes (capture_frames_brightness b m).2.out = keyboard_writes m.out
    ∧ publications (capture_frames_brightness b m).2.out = publications m.out ++
        [(Topic.CurrentAmbientBr, compute_average b.intensity m.conf.num_captures)] := by
  simp [capture_frames_brightness, hcap, M_PUB, emit, backlight_writes, keyboard_writes,
    publications, Effect.backlight_pct, Effect.keyboard_level, Effect.published,
    List.filterMap_append]

theorem capture_failed (b : Bus) (m : Mod) (hcap : b.capture_r ≠ 0) :
    capture_frames_brightness b m = (b.capture_r, emit (Effect.Capture m.conf.num_captures) m) := by
  simp [capture_frames_brightness, hcap]

theorem do_capture_eq (b : Bus) (rt : Bool) (m : Mod) :
    do_capture b rt m =
      if (capture_frames_brightness b m).1 = 0 then
        if (capture_frames_brightness b m).2.state.ambient_br
            > (capture_frames_brightness b m).2.conf.shutter_threshold then
          (set_new_backlight b ((capture_frames_brightness b m).2.state.ambient_br * 10)
            (capture_frames_brightness b m).2).bind (rearm rt)
        else rearm rt (capture_frames_brightness b m).2
      else rearm rt (capture_frames_brightness b m).2 := by
  by_cases h1 : (capture_frames_brightness b m).1 = 0 <;>
  by_cases h2 : (capture_frames_brightness b m).2.state.ambient_br
            > (capture_frames_brightness b m).2.conf.shutter_threshold <;>
  cases rt <;>
  simp [do_capture, rearm, h1, h2]

theorem rearm_some (rt : Bool) (m : Mod)
    (ht : rt = true → ∃ t, get_current_timeout m = some t) :
    ∃ m', rearm rt m = some m' ∧ m'.state = m.state ∧ m'.conf = m.conf
      ∧ backlight_writes m'.out = backlight_writes m.out
      ∧ keyboard_writes m'.out = keyboard_writes m.out
      ∧ publications m'.out = publications m.out := by
  cases rt
  · exact ⟨m, by simp [rearm], rfl, rfl, rfl, rfl, rfl⟩
  · obtain ⟨t, ht⟩ := ht rfl
    refine ⟨emit (Effect.SetTimeout t 0 m.bl_fd 0) m, by simp [rearm, ht], rfl, rfl, ?_, ?_, ?_⟩ <;>
    simp [emit, backlight_writes, keyboard_writes, publications, Effect.backlight_pct,
      Effect.keyboard_level, Effect.published, List.filterMap_append]

theorem do_capture_failed (b : Bus) (rt : Bool) (m : Mod) (hcap : b.capture_r ≠ 0)
    (ht : rt = true → ∃ t, get_current_timeout m = some t) :
    ∃ m', do_capture b rt m = some m' ∧ m'.state = m.state
      ∧ backlight_writes m'.out = backlight_writes m.out
      ∧ keyboard_writes m'.out = keyboard_writes m.out
      ∧ publications m'.out = publications m.out := by
  have hto : rt = true → ∃ t,
      get_current_timeout (emit (Effect.Capture m.conf.num_captures) m) = some t := by
    intro h
    obtain ⟨t, h⟩ := ht h
    exact ⟨t, by rw [← h]; exact get_current_timeout_congr _ _ rfl rfl rfl rfl⟩
  obtain ⟨m', hm', hst, _, hb, hk, hp⟩ := rearm_some rt _ hto
  refine ⟨m', ?_, ?_, ?_, ?_, ?_⟩
  · rw [do_capture_eq, capture_failed b m hcap]
    simpa [hcap] using hm'
  · simpa [emit] using hst
  · simpa [emit, backlight_writes, Effect.backlight_pct, List.filterMap_append] using hb
  · simpa [emit, keyboard_writes, Effect.keyboard_level, List.filterMap_append] using hk
  · simpa [emit, publications, Effect.published, List.filterMap_append] using hp

theorem do_capture_clogged (b : Bus) (rt : Bool) (m : Mod) (hcap : b.capture_r = 0)
    (hamb : compute_average b.intensity m.conf.num_captures ≤ m.conf.shutter_threshold)
    (ht : rt = true → ∃ t, get_current_timeout m = some t) :
    ∃ m', do_capture b rt m = some m'
      ∧ m'.state.current_bl_pct = m.state.current_bl_pct
      ∧ m'.state.current_kbd_pct = m.state.current_kbd_pct
      ∧ m'.state.ambient_br = compute_average b.intensity m.conf.num_captures
      ∧ backlight_writes m'.out = backlight_writes m.out
      ∧ keyboard_writes m'.out = keyboard_writes m.out
      ∧ publications m'.out = publications m.out ++
          [(Topic.CurrentAmbientBr, compute_average b.intensity m.conf.num_captures)] := by
  obtain ⟨h1, hc, _, _, hamb', hbl, hkbd, _, hac, hti, hev, hbw, hkw, hpub⟩ := capture_ok b m hcap
  have hto : rt = true → ∃ t, get_current_timeout (capture_frames_brightness b m).2 = some t := by
    intro h
    obtain ⟨t, h⟩ := ht h
    exact ⟨t, by rw [← h]; exact get_current_timeout_congr _ _ hc hac hti hev⟩
  obtain ⟨m', hm', hst, _, hb, hk, hp⟩ := rearm_some rt _ hto
  refine ⟨m', ?_, ?_, ?_, ?_, ?_, ?_, ?_⟩
  · rw [do_capture_eq, if_pos h1, if_neg (by rw [hamb', hc]; exact not_lt.mpr hamb)]
    exact hm'
  · rw [hst, hbl]
  · rw [hst, hkbd]
  · rw [hst, hamb']
  · rw [hb, hbw]
  · rw [hk, hkw]
  · rw [hp, hpub]

theorem do_capture_applied (b : Bus) (rt : Bool) (m : Mod) (a0 a1 a2 : ℚ)
    (hcap : b.capture_r = 0)
    (hamb : compute_average b.intensity m.conf.num_captures > m.conf.shutter_threshold)
    (h0 : idx2 m.state.fit_parameters m.state.ac_state 0 = some a0)
    (h1 : idx2 m.state.fit_parameters m.state.ac_state 1 = some a1)
    (h2 : idx2 m.state.fit_parameters m.state.ac_state 2 = some a2)
    (ht : rt = true → ∃ t, get_current_timeout m = some t) :
    ∃ m', do_capture b rt m = some m'
      ∧ m'.state.current_bl_pct =
          (if b.bl_ok then
            target a0 a1 a2 (compute_average b.intensity m.conf.num_captures * 10)
           else m.state.current_bl_pct)
      ∧ m'.state.current_kbd_pct =
          (if m.kbd_enabled then
            1 - target a0 a1 a2 (compute_average b.intensity m.conf.num_captures * 10)
           else m.state.current_kbd_pct)
      ∧ backlight_writes m'.out = backlight_writes m.out ++
          [target a0 a1 a2 (compute_average b.intensity m.conf.num_captures * 10)] := by
  obtain ⟨hr, hc, hmax, _, hamb', hbl, hkbd, hfit, hac, hti, hev, hbw, _, _⟩ := capture_ok b m hcap
  have hsn := set_new_backlight_eq b
    (compute_average b.intensity m.conf.num_captures * 10) (capture_frames_brightness b m).2
    a0 a1 a2 (by rw [hfit, hac]; exact h0) (by rw [hfit, hac]; exact h1)
    (by rw [hfit, hac]; exact h2)
  obtain ⟨fc, _, _, _, _, _, _, _, _, fac, fti, fev, _⟩ := apply_level_frame b
    (target a0 a1 a2 (compute_average b.intensity m.conf.num_captures * 10))
    (capture_frames_brightness b m).2
  have hto : rt = true → ∃ t, get_current_timeout (apply_level b
      (target a0 a1 a2 (compute_average b.intensity m.conf.num_captures * 10))
      (capture_frames_brightness b m).2) = some t := by
    intro h
    obtain ⟨t, h⟩ := ht h
    exact ⟨t, by
      rw [← h]
      exact get_current_timeout_congr _ _ (fc.trans hc) (fac.trans hac) (fti.trans hti)
        (fev.trans hev)⟩
  obtain ⟨m', hm', hst, _, hb, _, _⟩ := rearm_some rt _ hto
  refine ⟨m', ?_, ?_, ?_, ?_⟩
  · rw [do_capture_eq, if_pos hr, if_pos (by rw [hamb', hc]; exact hamb), hamb', hsn]
    exact hm'
  · rw [hst, apply_level_bl, hbl]
  · rw [hst, apply_level_kbd, hkbd]
    have : (capture_frames_brightness b m).2.kbd_enabled ↔ m.kbd_enabled := by
      simp [Mod.kbd_enabled, hmax, hc]
    by_cases hk : m.kbd_enabled
    · rw [if_pos hk, if_pos (this.mpr hk)]
    · rw [if_neg hk, if_neg (fun h => hk (this.mp h))]
  · rw [hb, apply_level_backlight_writes, hbw]

theorem ex_average : compute_average ex_bus.intensity ex_mod.conf.num_captures = 1 / 2 := by
  norm_num [compute_average, ex_bus, ex_mod, ex_conf, List.take]

/-! ## Capture and apply cycle -/

/-- C1: a capture cycle whose sensor call succeeds with an average `amb` above
the shutter threshold issues exactly one backlight hardware write, with the
value `clamp(a0 + a1 x + a2 x^2)` to `[0, 1]` for `x = 10 * amb` and the
coefficients of the active power source; when the hardware confirms,
`current_bl_pct` is that value, and when the keyboard is enabled and its write
succeeds, `current_kbd_pct` is one minus that value. -/
theorem do_capture_applies_quadratic (b : Bus) (m : Mod) (rt : Bool) (a0 a1 a2 amb : ℚ)
    (hcap : b.capture_r = 0)
    (havg : compute_average b.intensity m.conf.num_captures = amb)
    (hamb : amb > m.conf.shutter_threshold)
    (h0 : idx2 m.state.fit_parameters m.state.ac_state 0 = some a0)
    (h1 : idx2 m.state.fit_parameters m.state.ac_state 1 = some a1)
    (h2 : idx2 m.state.fit_parameters m.state.ac_state 2 = some a2)
    (ht : rt = true → ∃ t, get_current_timeout m = some t) :
    ∃ m', do_capture b rt m = some m'
      ∧ backlight_writes m'.out = backlight_writes m.out ++
          [clamp (a0 + a1 * (10 * amb) + a2 * (10 * amb) ^ 2) 1 0]
      ∧ (b.setall_r = 0 ∧ b.setall_ok ≠ 0 →
          m'.state.current_bl_pct = clamp (a0 + a1 * (10 * amb) + a2 * (10 * amb) ^ 2) 1 0)
      ∧ (m.max_kbd_backlight > 0 ∧ m.conf.no_keyboard_bl = 0 ∧ b.kbd_set_r = 0 →
          m'.state.current_kbd_pct
            = 1 - clamp (a0 + a1 * (10 * amb) + a2 * (10 * amb) ^ 2) 1 0) := by
  subst havg
  obtain ⟨m', hm', hbl, hkbd, hw⟩ := do_capture_applied b rt m a0 a1 a2 hcap hamb h0 h1 h2 ht
  have hx : compute_average b.intensity m.conf.num_captures * 10
      = 10 * compute_average b.intensity m.conf.num_captures := mul_comm _ _
  rw [hx] at hbl hkbd hw
  refine ⟨m', hm', hw, ?_, ?_⟩
  · intro hok
    have hok' : b.bl_ok := hok
    rw [hbl, if_pos hok']
    rfl
  · intro hen
    have hen' : m.kbd_enabled := ⟨hen.1, hen.2.1⟩
    rw [hkbd, if_pos hen']
    rfl

/-- Witness of C1: AC coefficients `(0, 0, 0.01)` and an average of 0.5 give
one hardware write of 0.25, `current_bl_pct = 0.25` and, with the keyboard
enabled, `current_kbd_pct = 0.75`. -/
theorem do_capture_applies_quadratic_witness :
    ∃ m', do_capture ex_bus true ex_mod = some m'
      ∧ backlight_writes m'.out = [1 / 4]
      ∧ m'.state.current_bl_pct = 1 / 4
      ∧ m'.state.current_kbd_pct = 3 / 4 := by
  obtain ⟨m', hm', hw, hbl, hkbd⟩ :=
    do_capture_applies_quadratic ex_bus ex_mod true 0 0 (1 / 100) (1 / 2) rfl ex_average
      (by norm_num [ex_mod, ex_conf]) rfl rfl rfl (fun _ => ⟨600, rfl⟩)
  have hv : clamp (0 + 0 * (10 * (1 / 2)) + 1 / 100 * (10 * (1 / 2)) ^ 2) 1 0 = (1 / 4 : ℚ) := by
    norm_num [clamp]
  rw [hv] at hw hbl hkbd
  refine ⟨m', hm', ?_, ?_, ?_⟩
  · simpa [ex_mod, backlight_writes] using hw
  · exact hbl ⟨rfl, by decide⟩
  · rw [hkbd ⟨by decide, rfl, rfl⟩]
    norm_num

/-- C2: every value a capture/apply cycle commits to `current_bl_pct` or to
`current_kbd_pct` lies in `[0, 1]` (each field is either left as it was or set
to a value of the unit interval), and so does every percentage the cycle
passes to the backlight hardware apply. -/
theorem do_capture_commits_unit_interval (b : Bus) (m : Mod) (rt : Bool)
    (hfit : ∃ a0 a1 a2, idx2 m.state.fit_parameters m.state.ac_state 0 = some a0
      ∧ idx2 m.state.fit_parameters m.state.ac_state 1 = some a1
      ∧ idx2 m.state.fit_parameters m.state.ac_state 2 = some a2)
    (ht : rt = true → ∃ t, get_current_timeout m = some t) :
    ∃ m' ws, do_capture b rt m = some m'
      ∧ (m'.state.current_bl_pct = m.state.current_bl_pct
          ∨ (0 ≤ m'.state.current_bl_pct ∧ m'.state.current_bl_pct ≤ 1))
      ∧ (m'.state.current_kbd_pct = m.state.current_kbd_pct
          ∨ (0 ≤ m'.state.current_kbd_pct ∧ m'.state.current_kbd_pct ≤ 1))
      ∧ backlight_writes m'.out = backlight_writes m.out ++ ws
      ∧ ∀ p ∈ ws, 0 ≤ p ∧ p ≤ 1 := by
  obtain ⟨a0, a1, a2, h0, h1, h2⟩ := hfit
  by_cases hcap : b.capture_r = 0
  · by_cases hamb : compute_average b.intensity m.conf.num_captures > m.conf.shutter_threshold
    · obtain ⟨m', hm', hbl, hkbd, hw⟩ :=
        do_capture_applied b rt m a0 a1 a2 hcap hamb h0 h1 h2 ht
      have hb := target_bounds a0 a1 a2 (compute_average b.intensity m.conf.num_captures * 10)
      refine ⟨m', [target a0 a1 a2 (compute_average b.intensity m.conf.num_captures * 10)],
        hm', ?_, ?_, hw, ?_⟩
      · by_cases hok : b.bl_ok
        · right
          rw [hbl, if_pos hok]
          exact hb
        · left
          rw [hbl, if_neg hok]
      · by_cases hen : m.kbd_enabled
        · right
          rw [hkbd, if_pos hen]
          exact ⟨sub_nonneg.mpr hb.2, sub_le_self 1 hb.1⟩
        · left
          rw [hkbd, if_neg hen]
      · intro p hp
        rw [List.mem_singleton] at hp
        rw [hp]
        exact hb
    · obtain ⟨m', hm', hbl, hkbd, _, hw, _, _⟩ :=
        do_capture_clogged b rt m hcap (not_lt.mp hamb) ht
      exact ⟨m', [], hm', Or.inl hbl, Or.inl hkbd, by simpa using hw, by simp⟩
  · obtain ⟨m', hm', hst, hw, _, _⟩ := do_capture_failed b rt m hcap ht
    exact ⟨m', [], hm', Or.inl (by rw [hst]), Or.inl (by rw [hst]), by simpa using hw, by simp⟩

/-- Witness of C2: the cycle of `ex_bus` on `ex_mod`, with the timer re-armed. -/
theorem do_capture_commits_unit_interval_witness :
    ∃ m' ws, do_capture ex_bus true ex_mod = some m'
      ∧ (m'.state.current_bl_pct = ex_mod.state.current_bl_pct
          ∨ (0 ≤ m'.state.current_bl_pct ∧ m'.state.current_bl_pct ≤ 1))
      ∧ (m'.state.current_kbd_pct = ex_mod.state.current_kbd_pct
          ∨ (0 ≤ m'.state.current_kbd_pct ∧ m'.state.current_kbd_pct ≤ 1))
      ∧ backlight_writes m'.out = backlight_writes ex_mod.out ++ ws
      ∧ ∀ p ∈ ws, 0 ≤ p ∧ p ≤ 1 :=
  do_capture_commits_unit_interval ex_bus ex_mod true ⟨0, 0, 1 / 100, rfl, rfl, rfl⟩
    (fun _ => ⟨600, rfl⟩)

/-- C3: a clogged capture (sensor call succeeds, average at or below the
shutter threshold) issues no backlight and no keyboard hardware write and
leaves `current_bl_pct` and `current_kbd_pct` at their prior values. -/
theorem do_capture_clogged_no_mutation (b : Bus) (m : Mod) (rt : Bool)
    (hcap : b.capture_r = 0)
    (hamb : compute_average b.intensity m.conf.num_captures ≤ m.conf.shutter_threshold)
    (ht : rt = true → ∃ t, get_current_timeout m = some t) :
    ∃ m', do_capture b rt m = some m'
      ∧ backlight_writes m'.out = backlight_writes m.out
      ∧ keyboard_writes m'.out = keyboard_writes m.out
      ∧ m'.state.current_bl_pct = m.state.current_bl_pct
      ∧ m'.state.current_kbd_pct = m.state.current_kbd_pct := by
  obtain ⟨m', hm', hbl, hkbd, _, hw, hk, _⟩ := do_capture_clogged b rt m hcap hamb ht
  exact ⟨m', hm', hw, hk, hbl, hkbd⟩

/-- Witness of C3: shutter threshold 0.05 and a capture of average 0.03 leave
the backlight at 0.6, the keyboard at 0.4 and write nothing to the hardware. -/
theorem do_capture_clogged_no_mutation_witness :
    ex_mod.conf.shutter_threshold = 1 / 20
      ∧ compute_average ex_bus_clogged.intensity ex_mod.conf.num_captures = 3 / 100
      ∧ ∃ m', do_capture ex_bus_clogged true ex_mod = some m'
        ∧ backlight_writes m'.out = []
        ∧ keyboard_writes m'.out = []
        ∧ m'.state.current_bl_pct = 3 / 5
        ∧ m'.state.current_kbd_pct = 2 / 5 := by
  have havg : compute_average ex_bus_clogged.intensity ex_mod.conf.num_captures = 3 / 100 := by
    norm_num [compute_average, ex_bus_clogged, ex_bus, ex_mod, ex_conf, List.take]
  refine ⟨rfl, havg, ?_⟩
  exact do_capture_clogged_no_mutation ex_bus_clogged ex_mod true rfl
    (by rw [havg]; norm_num [ex_mod, ex_conf]) (fun _ => ⟨600, rfl⟩)

/-- C7: when the sensor `Capture` call fails, `do_capture` leaves
`ambient_br`, `current_bl_pct` and `current_kbd_pct` unchanged, publishes
nothing and issues no backlight or keyboard hardware write. -/
theorem do_capture_failed_changes_nothing (b : Bus) (m : Mod) (rt : Bool)
    (hcap : b.capture_r ≠ 0)
    (ht : rt = true → ∃ t, get_current_timeout m = some t) :
    ∃ m', do_capture b rt m = some m'
      ∧ m'.state.ambient_br = m.state.ambient_br
      ∧ m'.state.current_bl_pct = m.state.current_bl_pct
      ∧ m'.state.current_kbd_pct = m.state.current_kbd_pct
      ∧ publications m'.out = publications m.out
      ∧ backlight_writes m'.out = backlight_writes m.out
      ∧ keyboard_writes m'.out = keyboard_writes m.out := by
  obtain ⟨m', hm', hst, hw, hk, hp⟩ := do_capture_failed b rt m hcap ht
  exact ⟨m', hm', by rw [hst], by rw [hst], by rw [hst], hp, hw, hk⟩

/-- Witness of C7: a failing `Capture` call on `ex_mod`, with the timer
re-armed. -/
theorem do_capture_failed_changes_nothing_witness :
    ∃ m', do_capture ex_bus_capture_fails true ex_mod = some m'
      ∧ m'.state.ambient_br = ex_mod.state.ambient_br
      ∧ m'.state.current_bl_pct = ex_mod.state.current_bl_pct
      ∧ m'.state.current_kbd_pct = ex_mod.state.current_kbd_pct
      ∧ publications m'.out = publications ex_mod.out
      ∧ backlight_writes m'.out = backlight_writes ex_mod.out
      ∧ keyboard_writes m'.out = keyboard_writes ex_mod.out :=
  do_capture_failed_changes_nothing ex_bus_capture_fails ex_mod true (by decide)
    (fun _ => ⟨600, rfl⟩)

/-- C4, as stated, fails: with the keyboard enabled and a failing backlight
write, `set_new_backlight` keeps `current_bl_pct = 0.6` and sets
`current_kbd_pct = 0.75`, so `current_kbd_pct = 1 - current_bl_pct` does not
hold afterwards. -/
theorem kbd_relation_fails_on_backlight_failure :
    ¬ ∀ (b : Bus) (perc : ℚ) (m m' : Mod),
        m.max_kbd_backlight > 0 ∧ m.conf.no_keyboard_bl = 0 →
        set_new_backlight b perc m = some m' →
        m'.state.current_kbd_pct = 1 - m'.state.current_bl_pct := by
  intro h
  have hsn := set_new_backlight_eq ex_bus_setall_fails 5 ex_mod 0 0 (1 / 100) rfl rfl rfl
  have h1 := h ex_bus_setall_fails 5 ex_mod _ ⟨by decide, rfl⟩ hsn
  have hnok : ¬ ex_bus_setall_fails.bl_ok := fun hok => absurd hok.1 (by decide)
  have hen : ex_mod.kbd_enabled := ⟨by decide, rfl⟩
  rw [apply_level_bl, apply_level_kbd, if_neg hnok, if_pos hen] at h1
  norm_num [target, clamp, ex_mod, ex_state] at h1

/-- C4, amended: with the keyboard feature enabled, when the backlight
hardware write is confirmed and the keyboard hardware write succeeds, so that
both percentages are committed and published by the same apply cycle, the
state after `set_new_backlight` satisfies
`current_kbd_pct = 1 - current_bl_pct`. -/
theorem kbd_relation_after_confirmed_writes (b : Bus) (perc : ℚ) (m : Mod)
    (hfit : ∃ a0 a1 a2, idx2 m.state.fit_parameters m.state.ac_state 0 = some a0
      ∧ idx2 m.state.fit_parameters m.state.ac_state 1 = some a1
      ∧ idx2 m.state.fit_parameters m.state.ac_state 2 = some a2)
    (hen : m.max_kbd_backlight > 0 ∧ m.conf.no_keyboard_bl = 0)
    (hok : b.setall_r = 0 ∧ b.setall_ok ≠ 0)
    (hkw : b.kbd_set_r = 0) :
    ∃ m', set_new_backlight b perc m = some m'
      ∧ m'.state.current_kbd_pct = 1 - m'.state.current_bl_pct
      ∧ publications m'.out = publications m.out ++
          [(Topic.CurrentBlPct, m'.state.current_bl_pct),
           (Topic.CurrentKbdPct, m'.state.current_kbd_pct)] := by
  obtain ⟨a0, a1, a2, h0, h1, h2⟩ := hfit
  have hen' : m.kbd_enabled := hen
  have hok' : b.bl_ok := hok
  refine ⟨_, set_new_backlight_eq b perc m a0 a1 a2 h0 h1 h2, ?_, ?_⟩
  · rw [apply_level_bl, apply_level_kbd, if_pos hen', if_pos hok']
  · rw [apply_level_publications, apply_level_bl, apply_level_kbd, if_pos hen', if_pos hok',
      if_pos ⟨hen', hkw⟩, if_pos hok']
    rfl

/-- Witness of C4, amended: both hardware writes succeed on `ex_mod`. -/
theorem kbd_relation_after_confirmed_writes_witness :
    ∃ m', set_new_backlight ex_bus 5 ex_mod = some m'
      ∧ m'.state.current_kbd_pct = 1 - m'.state.current_bl_pct
      ∧ publications m'.out = publications ex_mod.out ++
          [(Topic.CurrentBlPct, m'.state.current_bl_pct),
           (Topic.CurrentKbdPct, m'.state.current_kbd_pct)] :=
  kbd_relation_after_confirmed_writes ex_bus 5 ex_mod
    ⟨0, 0, 1 / 100, rfl, rfl, rfl⟩ ⟨by decide, rfl⟩ ⟨rfl, by decide⟩ rfl

/-- C5, the code at the failing input: with the keyboard enabled, prior
`current_kbd_pct = 0.4`, level 0.25 and a failing `SetBrightness` call,
`set_keyboard_level` issues the write, publishes nothing and leaves
`current_kbd_pct = 0.75`, not the prior value. -/
theorem set_keyboard_level_failed_write_commits :
    ex_mod.state.current_kbd_pct = 2 / 5
      ∧ (set_keyboard_level ex_bus_kbd_fails (1 / 4) ex_mod).state.current_kbd_pct = 3 / 4
      ∧ publications (set_keyboard_level ex_bus_kbd_fails (1 / 4) ex_mod).out = []
      ∧ keyboard_writes (set_keyboard_level ex_bus_kbd_fails (1 / 4) ex_mod).out = [9 / 4] := by
  refine ⟨rfl, ?_, ?_, ?_⟩ <;>
  norm_num [set_keyboard_level, ex_bus_kbd_fails, ex_bus, ex_mod, ex_conf, ex_state, emit,
    publications, keyboard_writes, Effect.published, Effect.keyboard_level, List.filterMap]

/-- C6: `set_backlight_level` sets `current_bl_pct = pct` and publishes `pct`
on `CurrentBlPct` if and only if the `SetAll` call returns without error and
reports ok; otherwise `current_bl_pct` keeps its prior value and nothing is
published.  The hardware write is issued in both cases. -/
theorem set_backlight_level_commits_iff_confirmed (b : Bus) (pct : ℚ) (is_smooth : Int)
    (step : ℚ) (timeout : Int) (m : Mod) :
    (publications (set_backlight_level b pct is_smooth step timeout m).out
        = publications m.out ++ [(Topic.CurrentBlPct, pct)]
      ↔ (b.setall_r = 0 ∧ b.setall_ok ≠ 0))
    ∧ (set_backlight_level b pct is_smooth step timeout m).state.current_bl_pct
        = (if b.setall_r = 0 ∧ b.setall_ok ≠ 0 then pct else m.state.current_bl_pct)
    ∧ publications (set_backlight_level b pct is_smooth step timeout m).out
        = publications m.out ++
          (if b.setall_r = 0 ∧ b.setall_ok ≠ 0 then [(Topic.CurrentBlPct, pct)] else [])
    ∧ backlight_writes (set_backlight_level b pct is_smooth step timeout m).out
        = backlight_writes m.out ++ [pct] := by
  by_cases hs : b.setall_r = 0 ∧ b.setall_ok ≠ 0 <;>
  simp [set_backlight_level, M_PUB, emit, hs, publications, backlight_writes, Effect.published,
    Effect.backlight_pct, List.filterMap_append]

/-- C8: the two hardware writes of an apply cycle are independent.  Two runs
of `set_new_backlight` from the same state with the same computed percentage
(i) commit and publish the same `current_bl_pct` whenever the backlight write
has the same outcome in both, whatever the keyboard write does, and (ii) issue
the same keyboard writes whatever the backlight write does; with the keyboard
enabled that is one write of `(1 - v) * max_kbd_backlight`, for the computed
percentage `v` that is also the one backlight write. -/
theorem set_new_backlight_writes_independent (b b' : Bus) (perc : ℚ) (m : Mod)
    (hfit : ∃ a0 a1 a2, idx2 m.state.fit_parameters m.state.ac_state 0 = some a0
      ∧ idx2 m.state.fit_parameters m.state.ac_state 1 = some a1
      ∧ idx2 m.state.fit_parameters m.state.ac_state 2 = some a2) :
    ∃ m1 m2 v, set_new_backlight b perc m = some m1 ∧ set_new_backlight b' perc m = some m2
      ∧ (b.setall_r = b'.setall_r ∧ b.setall_ok = b'.setall_ok →
          m1.state.current_bl_pct = m2.state.current_bl_pct
          ∧ (publications m1.out).filter (fun p => p.1 = Topic.CurrentBlPct)
              = (publications m2.out).filter (fun p => p.1 = Topic.CurrentBlPct))
      ∧ (b.setall_r = 0 ∧ b.setall_ok ≠ 0 → m1.state.current_bl_pct = v)
      ∧ keyboard_writes m1.out = keyboard_writes m2.out
      ∧ backlight_writes m1.out = backlight_writes m.out ++ [v]
      ∧ (m.max_kbd_backlight > 0 ∧ m.conf.no_keyboard_bl = 0 →
          keyboard_writes m1.out
            = keyboard_writes m.out ++ [(1 - v) * (m.max_kbd_backlight : ℚ)]) := by
  obtain ⟨a0, a1, a2, h0, h1, h2⟩ := hfit
  refine ⟨_, _, target a0 a1 a2 perc, set_new_backlight_eq b perc m a0 a1 a2 h0 h1 h2,
    set_new_backlight_eq b' perc m a0 a1 a2 h0 h1 h2, ?_, ?_, ?_, ?_, ?_⟩
  · intro hsame
    have hiff : b.bl_ok ↔ b'.bl_ok := by simp [Bus.bl_ok, hsame.1, hsame.2]
    rw [apply_level_bl, apply_level_bl, apply_level_publications, apply_level_publications]
    by_cases hok : b.bl_ok
    · have hok' := hiff.mp hok
      constructor
      · rw [if_pos hok, if_pos hok']
      · by_cases hk : m.kbd_enabled ∧ b.kbd_set_r = 0 <;>
        by_cases hk' : m.kbd_enabled ∧ b'.kbd_set_r = 0 <;>
        simp [hok, hok', hk, hk', List.filter_append, List.filter]
    · have hok' : ¬ b'.bl_ok := fun h => hok (hiff.mpr h)
      constructor
      · rw [if_neg hok, if_neg hok']
      · by_cases hk : m.kbd_enabled ∧ b.kbd_set_r = 0 <;>
        by_cases hk' : m.kbd_enabled ∧ b'.kbd_set_r = 0 <;>
        simp [hok, hok', hk, hk', List.filter_append, List.filter]
  · intro hok
    have hok' : b.bl_ok := hok
    rw [apply_level_bl, if_pos hok']
  · rw [apply_level_keyboard_writes, apply_level_keyboard_writes]
  · exact apply_level_backlight_writes b _ m
  · intro hen
    have hen' : m.kbd_enabled := hen
    rw [apply_level_keyboard_writes, if_pos hen']

/-- Witness of C8: on `ex_mod`, a run in which both writes succeed, a run in
which only the keyboard write fails and a run in which only the backlight
write fails; the first two commit the same `current_bl_pct`, the first and
the third issue the same keyboard write. -/
theorem set_new_backlight_writes_independent_witness :
    ∃ m1 m2 m3, set_new_backlight ex_bus 5 ex_mod = some m1
      ∧ set_new_backlight ex_bus_kbd_fails 5 ex_mod = some m2
      ∧ set_new_backlight ex_bus_setall_fails 5 ex_mod = some m3
      ∧ m1.state.current_bl_pct = m2.state.current_bl_pct
      ∧ keyboard_writes m1.out = keyboard_writes m3.out := by
  obtain ⟨m1, m2, _, e1, e2, hsame, _, _, _, _⟩ :=
    set_new_backlight_writes_independent ex_bus ex_bus_kbd_fails 5 ex_mod
      ⟨0, 0, 1 / 100, rfl, rfl, rfl⟩
  obtain ⟨m1', m3, _, e1', e3, _, _, hkw, _, _⟩ :=
    set_new_backlight_writes_independent ex_bus ex_bus_setall_fails 5 ex_mod
      ⟨0, 0, 1 / 100, rfl, rfl, rfl⟩
  have h11 : m1' = m1 := Option.some.inj (e1'.symm.trans e1)
  rw [h11] at hkw
  exact ⟨m1, m2, m3, e1, e2, e3, (hsame ⟨rfl, rfl⟩).1, hkw⟩

/-! ## Timeout selection -/

/-- C9: on a populated timeout table (one row per power source, one column
per time bucket plus the `IN_EVENT` column), for every power source and every
bucket of the table, `get_current_timeout` returns a value, never reads
outside the table, and the value is `timeout[ac_state][IN_EVENT]` when
`in_event` is set and `timeout[ac_state][time]` otherwise. -/
theorem get_current_timeout_total (m : Mod)
    (hrows : m.conf.timeout.length = SIZE_AC)
    (hcols : ∀ row ∈ m.conf.timeout, row.length = SIZE_STATES + 1)
    (hac : 0 ≤ m.state.ac_state ∧ m.state.ac_state < SIZE_AC)
    (htime : 0 ≤ m.state.time ∧ m.state.time < SIZE_STATES + 1) :
    ∃ row v_time v_event,
      m.conf.timeout.get? m.state.ac_state.toNat = some row
      ∧ row.get? m.state.time.toNat = some v_time
      ∧ row.get? IN_EVENT.toNat = some v_event
      ∧ get_current_timeout m = some (if m.state.in_event ≠ 0 then v_event else v_time) := by
  have hi : m.state.ac_state.toNat < m.conf.timeout.length := by
    rw [hrows]
    have := hac.2
    simp only [SIZE_AC] at this ⊢
    omega
  have hrow := hcols _ (List.get_mem m.conf.timeout m.state.ac_state.toNat hi)
  have hj : m.state.time.toNat < (m.conf.timeout.get ⟨m.state.ac_state.toNat, hi⟩).length := by
    rw [hrow]
    have := htime.2
    simp only [SIZE_STATES] at this ⊢
    omega
  have he : IN_EVENT.toNat < (m.conf.timeout.get ⟨m.state.ac_state.toNat, hi⟩).length := by
    rw [hrow]
    simp [SIZE_STATES, IN_EVENT]
  have hget : m.conf.timeout.get? m.state.ac_state.toNat
      = some (m.conf.timeout.get ⟨m.state.ac_state.toNat, hi⟩) := List.get?_eq_get hi
  refine ⟨m.conf.timeout.get ⟨m.state.ac_state.toNat, hi⟩,
    (m.conf.timeout.get ⟨m.state.ac_state.toNat, hi⟩).get ⟨m.state.time.toNat, hj⟩,
    (m.conf.timeout.get ⟨m.state.ac_state.toNat, hi⟩).get ⟨IN_EVENT.toNat, he⟩,
    hget, List.get?_eq_get hj, List.get?_eq_get he, ?_⟩
  have hIN : (0 : Int) ≤ IN_EVENT := by decide
  by_cases hev : m.state.in_event ≠ 0
  · rw [if_pos hev]
    unfold get_current_timeout idx2
    rw [if_pos hev, if_pos ⟨hac.1, hIN⟩, hget]
    exact List.get?_eq_get he
  · rw [if_neg hev]
    unfold get_current_timeout idx2
    rw [if_neg hev, if_pos ⟨hac.1, htime.1⟩, hget]
    exact List.get?_eq_get hj

/-- Witness of C9: `ex_mod` is on AC by day outside events and its table is
populated; the timeout is `timeout[AC][DAY] = 600`. -/
theorem get_current_timeout_total_witness :
    ∃ row v_time v_event,
      ex_mod.conf.timeout.get? ex_mod.state.ac_state.toNat = some row
      ∧ row.get? ex_mod.state.time.toNat = some v_time
      ∧ row.get? IN_EVENT.toNat = some v_event
      ∧ get_current_timeout ex_mod
          = some (if ex_mod.state.in_event ≠ 0 then v_event else v_time) :=
  get_current_timeout_total ex_mod rfl (by decide) (by decide) (by decide)

/-! ## Lifecycle at start-up -/

theorem init_sensor_unavailable_paused (c : Conf) (s : State) :
    lifecycle (init { ex_bus with avail := 0 } (Mod.fresh c s)) = Lifecycle.PAUSED
    ∧ (init { ex_bus with avail := 0 } (Mod.fresh c s)).fds = [] := by
  by_cases hc : c.no_auto_calib = 0 <;>
  simp [init, polynomialfit, ON_AC, ON_BATTERY, init_kbd_backlight, is_sensor_available, emit,
    m_become, lifecycle, Mod.fresh, init_subscriptions, ex_bus, hc]

/-- C10: after `init` on a fresh module, the machine is ACTIVE with the timer
registered exactly when the sensor probe succeeds and reports available and
`no_auto_calib` is unset; in every other case it is PAUSED with the timer not
registered. -/
theorem init_lifecycle (b : Bus) (c : Conf) (s : State) :
    (lifecycle (init b (Mod.fresh c s)), timer_registered (init b (Mod.fresh c s)))
      = (if (b.avail_r = 0 ∧ b.avail ≠ 0) ∧ c.no_auto_calib = 0
         then (Lifecycle.ACTIVE, true) else (Lifecycle.PAUSED, false))
    ∧ (init b (Mod.fresh c s)).sensor_available = (if b.avail_r = 0 ∧ b.avail ≠ 0 then 1 else 0)
    ∧ (init b (Mod.fresh c s)).mailbox = [] := by
  by_cases ha : b.avail_r = 0 ∧ b.avail ≠ 0 <;>
  by_cases hc : c.no_auto_calib = 0 <;>
  by_cases hk : b.kbd_max_r = 0 <;>
  simp [init, polynomialfit, ON_AC, ON_BATTERY, init_kbd_backlight, is_sensor_available, emit,
    m_register_fd, m_become, lifecycle, timer_registered, Mod.fresh, init_subscriptions,
    ha, hc, hk]

/-! ## Lemmas on the lifecycle -/

theorem dispatch_self_msg (b : Bus) (u : state_upd) (m : Mod) :
    dispatch b (self_msg u) m = some (confirm u m) := by
  rcases m with ⟨c, s, sa, mk, fd, recvs, fds, mb, out⟩
  cases u <;> cases recvs with
  | nil => simp [dispatch, self_msg, receive, confirm]
  | cons r rs => cases r; simp [dispatch, self_msg, receive_paused, confirm]

theorem confirm_frame (u : state_upd) (m : Mod) :
    (confirm u m).recvs = m.recvs ∧ (confirm u m).bl_fd = m.bl_fd
    ∧ (confirm u m).mailbox = m.mailbox ∧ (confirm u m).conf = m.conf
    ∧ (confirm u m).state = m.state ∧ (confirm u m).sensor_available = m.sensor_available
    ∧ (confirm u m).out = m.out := by
  rcases m with ⟨c, s, sa, mk, fd, recvs, fds, mb, out⟩
  cases u <;> cases recvs <;> simp [confirm, m_register_fd, m_deregister_fd]
  split_ifs <;> simp

theorem pause_step_eq (b : Bus) (m : Mod) (hq : m.mailbox = []) :
    pause_step b m
      = some { m with recvs := Recv.paused :: m.recvs,
                      fds := m.fds.filter (fun x => x ≠ m.bl_fd) } := by
  rcases m with ⟨c, s, sa, mk, fd, recvs, fds, mb, out⟩
  simp only at hq
  subst hq
  simp [pause_step, drain, deliver_n, deliver, pause_mod, m_tell, m_become, dispatch_self_msg,
    confirm, m_deregister_fd]

theorem resume_step_eq (b : Bus) (m : Mod) (hq : m.mailbox = []) :
    resume_step b m
      = some (if m.recvs.tail = [] then m_register_fd m.bl_fd { m with recvs := [] }
              else { m with recvs := m.recvs.tail }) := by
  rcases m with ⟨c, s, sa, mk, fd, recvs, fds, mb, out⟩
  simp only at hq
  subst hq
  cases h : recvs.tail with
  | nil =>
    simp [resume_step, drain, deliver_n, deliver, resume_mod, m_tell, m_unbecome,
      dispatch_self_msg, confirm, h]
  | cons r rs =>
    simp [resume_step, drain, deliver_n, deliver, resume_mod, m_tell, m_unbecome,
      dispatch_self_msg, confirm, h]

theorem count_filter_ne (fd : Int) (fds : List Int) :
    List.count fd (List.filter (fun x => x ≠ fd) fds) = 0 := by
  simp [List.count_eq_zero, List.mem_filter]

theorem init_mailbox (b : Bus) (c : Conf) (s : State) : (init b (Mod.fresh c s)).mailbox = [] := by
  by_cases ha : b.avail_r = 0 ∧ b.avail ≠ 0 <;>
  by_cases hc : c.no_auto_calib = 0 <;>
  by_cases hk : b.kbd_max_r = 0 <;>
  simp [init, polynomialfit, ON_AC, ON_BATTERY, init_kbd_backlight, is_sensor_available, emit,
    m_register_fd, m_become, Mod.fresh, init_subscriptions, ha, hc, hk]

theorem deliver_pause_mod (b : Bus) (m : Mod) (hq : m.mailbox = []) :
    deliver b (pause_mod m)
      = some (confirm state_upd.PAUSE_UPD { pause_mod m with mailbox := [] }) := by
  simp [deliver, pause_mod, m_tell, m_become, hq, dispatch_self_msg]

theorem inv_init (b : Bus) (c : Conf) (s : State) : Inv (init b (Mod.fresh c s)) := by
  by_cases ha : b.avail_r = 0 ∧ b.avail ≠ 0 <;>
  by_cases hc : c.no_auto_calib = 0 <;>
  by_cases hk : b.kbd_max_r = 0 <;>
  simp [Inv, timer_registrations, init, polynomialfit, ON_AC, ON_BATTERY, init_kbd_backlight,
    is_sensor_available, emit, m_register_fd, m_become, Mod.fresh, init_subscriptions,
    ha, hc, hk]

theorem inv_pause (m : Mod) (h : Inv m) : Inv (pause_mod m) := by
  obtain ⟨h1, _, _⟩ := h
  exact ⟨h1, fun _ _ => by simp [pause_mod, m_tell, m_become],
    fun hr => by simp [pause_mod, m_tell, m_become] at hr⟩

theorem inv_resume (m : Mod) (h : Inv m) : Inv (resume_mod m) := by
  obtain ⟨h1, h2, _⟩ := h
  refine ⟨h1, ?_, fun _ _ => by simp [resume_mod, m_tell, m_unbecome]⟩
  intro hr hin
  have hne : m.recvs ≠ [] := by
    intro he
    simp [resume_mod, m_tell, m_unbecome, he] at hr
  have := h2 hne hin
  simp [resume_mod, m_tell, m_unbecome, this]

theorem inv_confirm (u : state_upd) (rest : List state_upd) (m : Mod)
    (hm : m.mailbox = u :: rest) (h : Inv m) : Inv (confirm u { m with mailbox := rest }) := by
  rcases m with ⟨c, s, sa, mk, fd, recvs, fds, mb, out⟩
  simp only at hm
  subst hm
  obtain ⟨h1, h2, h3⟩ := h
  simp only [timer_registrations] at h1 h2 h3
  cases recvs with
  | nil =>
    cases u with
    | PAUSE_UPD =>
      refine ⟨h1, fun hr => absurd rfl hr, fun _ hn => ?_⟩
      simpa [confirm] using h3 rfl hn
    | RESUME_UPD =>
      by_cases hin : fd ∈ fds
      · simp [Inv, confirm, m_register_fd, hin, timer_registrations]
        exact h1
      · simp [Inv, confirm, m_register_fd, hin, timer_registrations, List.count_eq_zero]
  | cons r rs =>
    cases u with
    | PAUSE_UPD =>
      have h0 := count_filter_ne fd fds
      simp only [ne_eq, decide_not] at h0
      simp [Inv, confirm, m_deregister_fd, timer_registrations, List.mem_filter, h0]
    | RESUME_UPD =>
      refine ⟨h1, fun _ hin => ?_, fun hr => ?_⟩
      · simpa [confirm] using h2 (by simp) hin
      · simp [confirm] at hr

theorem inv_deliver (b : Bus) (m m' : Mod) (h : Inv m) (hd : deliver b m = some m') :
    Inv m' := by
  unfold deliver at hd
  cases hm : m.mailbox with
  | nil =>
    rw [hm] at hd
    simp only [Option.some.injEq] at hd
    rw [← hd]
    exact h
  | cons u rest =>
    rw [hm] at hd
    simp only [dispatch_self_msg, Option.some.injEq] at hd
    rw [← hd]
    exact inv_confirm u rest m hm h

theorem reachable_inv (m : Mod) (h : Reachable m) : Inv m := by
  induction h with
  | init b c s => exact inv_init b c s
  | pause m _ ih => exact inv_pause m ih
  | resume m _ ih => exact inv_resume m ih
  | deliver b m m' _ hd ih => exact inv_deliver b m m' ih hd

/-! ## Pause and resume -/

/-- C11: from every state with no pending confirmation, `pause_mod()` and then
`resume_mod()`, each followed by the delivery of its confirmation to the
handler current at delivery, restore the lifecycle state (ACTIVE stays
ACTIVE, PAUSED stays PAUSED); in between the machine is PAUSED with the timer
released, and when the start state is ACTIVE the timer ends registered exactly
once. -/
theorem pause_resume_round_trip (b b' : Bus) (m : Mod) (hq : m.mailbox = []) :
    ∃ m1 m2, pause_step b m = some m1 ∧ resume_step b' m1 = some m2
      ∧ lifecycle m1 = Lifecycle.PAUSED ∧ timer_registered m1 = false
      ∧ lifecycle m2 = lifecycle m
      ∧ m2.mailbox = []
      ∧ (lifecycle m = Lifecycle.ACTIVE →
          timer_registered m2 = true ∧ timer_registrations m2 = 1)
      ∧ (lifecycle m = Lifecycle.PAUSED → timer_registered m2 = false) := by
  refine ⟨_, _, pause_step_eq b m hq, resume_step_eq b' _ hq, ?_⟩
  rcases m with ⟨c, s, sa, mk, fd, recvs, fds, mb, out⟩
  simp only at hq
  subst hq
  cases recvs with
  | nil =>
    simp [lifecycle, timer_registered, timer_registrations, m_register_fd, List.mem_filter,
      List.count_eq_zero]
  | cons r rs =>
    cases r
    simp [lifecycle, timer_registered, timer_registrations, List.mem_filter]

/-- Witness of C11: the round trip from the ACTIVE module `ex_mod`. -/
theorem pause_resume_round_trip_witness :
    ∃ m1 m2, pause_step ex_bus ex_mod = some m1 ∧ resume_step ex_bus m1 = some m2
      ∧ lifecycle m1 = Lifecycle.PAUSED ∧ timer_registered m1 = false
      ∧ lifecycle m2 = lifecycle ex_mod
      ∧ m2.mailbox = []
      ∧ (lifecycle ex_mod = Lifecycle.ACTIVE →
          timer_registered m2 = true ∧ timer_registrations m2 = 1)
      ∧ (lifecycle ex_mod = Lifecycle.PAUSED → timer_registered m2 = false) :=
  pause_resume_round_trip ex_bus ex_bus ex_mod rfl

theorem reachable_quiescent (m : Mod) (hr : Reachable m) (hq : m.mailbox = []) :
    timer_registrations m ≤ 1 ∧ (m.recvs ≠ [] → m.bl_fd ∉ m.fds)
      ∧ (m.recvs = [] → m.bl_fd ∈ m.fds) := by
  obtain ⟨h1, h2, h3⟩ := reachable_inv m hr
  rw [hq] at h2 h3
  refine ⟨h1, fun hne hin => ?_, fun he => ?_⟩
  · exact absurd (h2 hne hin) (List.not_mem_nil _)
  · by_contra hn
    exact absurd (h3 he hn) (List.not_mem_nil _)

/-- C16: in every state reachable from `init` by calls of `pause_mod()` and
`resume_mod()` and deliveries of their confirmations, in any order, once every
confirmation has been delivered the machine is neither PAUSED with the timer
registered nor ACTIVE with the timer unregistered. -/
theorem timer_follows_lifecycle (m : Mod) (hr : Reachable m) (hq : m.mailbox = []) :
    ¬ (lifecycle m = Lifecycle.PAUSED ∧ timer_registered m = true)
    ∧ ¬ (lifecycle m = Lifecycle.ACTIVE ∧ timer_registered m = false) := by
  obtain ⟨_, h2, h3⟩ := reachable_quiescent m hr hq
  rcases m with ⟨c, s, sa, mk, fd, recvs, fds, mb, out⟩
  cases recvs with
  | nil =>
    have := h3 rfl
    simp [lifecycle, timer_registered, this]
  | cons r rs =>
    cases r
    have := h2 (by simp)
    simp [lifecycle, timer_registered, this]

/-- Witness of C16: the state after `init` with a sensor, a `pause_mod()` call
and the delivery of its confirmation. -/
theorem timer_follows_lifecycle_witness :
    ∃ m, deliver ex_bus (pause_mod (init ex_bus (Mod.fresh ex_conf ex_state))) = some m
      ∧ m.mailbox = [] ∧ lifecycle m = Lifecycle.PAUSED
      ∧ ¬ (lifecycle m = Lifecycle.PAUSED ∧ timer_registered m = true)
      ∧ ¬ (lifecycle m = Lifecycle.ACTIVE ∧ timer_registered m = false) := by
  have hd : deliver ex_bus (pause_mod (init ex_bus (Mod.fresh ex_conf ex_state)))
      = some (confirm state_upd.PAUSE_UPD
          { pause_mod (init ex_bus (Mod.fresh ex_conf ex_state)) with mailbox := [] }) :=
    deliver_pause_mod ex_bus _ (init_mailbox ex_bus ex_conf ex_state)
  have hreach := Reachable.deliver ex_bus _ _
    (Reachable.pause _ (Reachable.init ex_bus ex_conf ex_state)) hd
  have hq : (confirm state_upd.PAUSE_UPD
      { pause_mod (init ex_bus (Mod.fresh ex_conf ex_state)) with mailbox := [] }).mailbox
      = [] := by
    rw [(confirm_frame _ _).2.2.1]
  have hl : lifecycle (confirm state_upd.PAUSE_UPD
      { pause_mod (init ex_bus (Mod.fresh ex_conf ex_state)) with mailbox := [] })
      = Lifecycle.PAUSED := by
    simp [lifecycle, (confirm_frame _ _).1, pause_mod, m_tell, m_become]
  exact ⟨_, hd, hq, hl, timer_follows_lifecycle _ hreach hq⟩

/-- C13: `on_sensor_change` re-probes availability.  When the probed value
equals the cached `sensor_available`, the cache, the handler stack, the timer
registration and the mailbox are unchanged.  When it differs, the cache takes
the probed value and the machine is driven by `resume_mod()` if the sensor
became available and by `pause_mod()` if it became unavailable.  From an
ACTIVE state with no pending confirmation, a flip to unavailable yields PAUSED
and, once the confirmation is delivered, the timer released. -/
theorem on_sensor_change_drives_lifecycle (b : Bus) (m : Mod) :
    ((if b.avail_r = 0 ∧ b.avail ≠ 0 then 1 else 0) = m.sensor_available →
        (on_sensor_change b m).sensor_available = m.sensor_available
        ∧ (on_sensor_change b m).recvs = m.recvs
        ∧ (on_sensor_change b m).fds = m.fds
        ∧ (on_sensor_change b m).mailbox = m.mailbox)
    ∧ ((if b.avail_r = 0 ∧ b.avail ≠ 0 then 1 else 0) ≠ m.sensor_available →
        (b.avail_r = 0 ∧ b.avail ≠ 0 →
          on_sensor_change b m
            = resume_mod { emit Effect.IsAvailable m with sensor_available := 1 })
        ∧ (¬ (b.avail_r = 0 ∧ b.avail ≠ 0) →
          on_sensor_change b m
            = pause_mod { emit Effect.IsAvailable m with sensor_available := 0 }))
    ∧ (lifecycle m = Lifecycle.ACTIVE → m.mailbox = [] → m.sensor_available ≠ 0 →
        ¬ (b.avail_r = 0 ∧ b.avail ≠ 0) →
        lifecycle (on_sensor_change b m) = Lifecycle.PAUSED
        ∧ (on_sensor_change b m).sensor_available = 0
        ∧ ∃ m', drain b (on_sensor_change b m) = some m'
            ∧ lifecycle m' = Lifecycle.PAUSED ∧ timer_registered m' = false
            ∧ m'.mailbox = []) := by
  by_cases ha : b.avail_r = 0 ∧ b.avail ≠ 0
  · refine ⟨fun h => ?_, fun h => ⟨fun _ => ?_, fun hn => absurd ha hn⟩,
      fun _ _ _ hn => absurd ha hn⟩
    · rw [if_pos ha] at h
      simp [on_sensor_change, is_sensor_available, ha, emit, ← h]
    · rw [if_pos ha] at h
      simp [on_sensor_change, is_sensor_available, ha, emit, h]
  · refine ⟨fun h => ?_, fun h => ⟨fun hp => absurd hp ha, fun _ => ?_⟩, fun hl hq hs _ => ?_⟩
    · rw [if_neg ha] at h
      simp [on_sensor_change, is_sensor_available, ha, emit, ← h]
    · rw [if_neg ha] at h
      simp [on_sensor_change, is_sensor_available, ha, emit, h]
    · have hne : (0 : Int) ≠ m.sensor_available := fun h => hs h.symm
      have heq : on_sensor_change b m
          = pause_mod { emit Effect.IsAvailable m with sensor_available := 0 } := by
        simp [on_sensor_change, is_sensor_available, ha, emit, hne]
      have hd := pause_step_eq b { emit Effect.IsAvailable m with sensor_available := 0 } hq
      rw [heq]
      refine ⟨by simp [lifecycle, pause_mod, m_tell, m_become],
        by simp [pause_mod, m_tell, m_become], _, hd, ?_, ?_, ?_⟩
      · simp [lifecycle]
      · simp [timer_registered, emit, List.mem_filter]
      · simpa [emit] using hq

/-- Witness of C13: the ACTIVE module `ex_mod`, whose cache says available,
receives a notification while the probe reports no sensor: the machine is
PAUSED and, after the delivery of the confirmation, the timer is released. -/
theorem on_sensor_change_drives_lifecycle_witness :
    lifecycle (on_sensor_change ex_bus_no_sensor ex_mod) = Lifecycle.PAUSED
      ∧ (on_sensor_change ex_bus_no_sensor ex_mod).sensor_available = 0
      ∧ ∃ m', drain ex_bus_no_sensor (on_sensor_change ex_bus_no_sensor ex_mod) = some m'
          ∧ lifecycle m' = Lifecycle.PAUSED ∧ timer_registered m' = false
          ∧ m'.mailbox = [] :=
  (on_sensor_change_drives_lifecycle ex_bus_no_sensor ex_mod).2.2 rfl rfl (by decide)
    (fun h => absurd h.2 (by decide))

/-! ## Lemmas on the capture cycle as a whole -/

theorem capture_cycle_frame (b : Bus) (m : Mod) :
    CycleFrame m.conf.num_captures (capture_frames_brightness b m).2 m := by
  by_cases hcap : b.capture_r = 0 <;>
  simp [CycleFrame, capture_frames_brightness, hcap, M_PUB, emit, sensor_calls, timer_armings,
    Effect.sensor_call, Effect.arming, List.filterMap_append]

theorem apply_level_other_traces (b : Bus) (v : ℚ) (m : Mod) :
    sensor_calls (apply_level b v m).out = sensor_calls m.out
    ∧ timer_armings (apply_level b v m).out = timer_armings m.out := by
  by_cases hs : b.setall_r = 0 ∧ b.setall_ok ≠ 0 <;>
  by_cases hk : m.max_kbd_backlight > 0 ∧ m.conf.no_keyboard_bl = 0 <;>
  by_cases hr : b.kbd_set_r = 0 <;>
  simp [apply_level, set_keyboard_level, set_backlight_level, M_PUB, emit, hs, hk, hr,
    sensor_calls, timer_armings, Effect.sensor_call, Effect.arming, List.filterMap_append]

theorem apply_level_cycle_frame (b : Bus) (v : ℚ) (n : Int) (m1 m : Mod)
    (h : CycleFrame n m1 m) : CycleFrame n (apply_level b v m1) m := by
  obtain ⟨h1, h2, h3, h4, h5, h6, h7, h8, h9, h10, h11, h12, h13⟩ := h
  obtain ⟨f1, f2, _, f4, f5, f6, f7, _, f9, f10, f11, f12, f13⟩ := apply_level_frame b v m1
  obtain ⟨t1, t2⟩ := apply_level_other_traces b v m1
  exact ⟨f1.trans h1, f4.trans h2, f6.trans h3, f5.trans h4, f7.trans h5, f2.trans h6,
    f10.trans h7, f11.trans h8, f12.trans h9, f13.trans h10, f9.trans h11, t1.trans h12,
    t2.trans h13⟩

theorem do_capture_pre (b : Bus) (rt : Bool) (m : Mod)
    (hfit : ∃ a0 a1 a2, idx2 m.state.fit_parameters m.state.ac_state 0 = some a0
      ∧ idx2 m.state.fit_parameters m.state.ac_state 1 = some a1
      ∧ idx2 m.state.fit_parameters m.state.ac_state 2 = some a2) :
    ∃ m2, do_capture b rt m = rearm rt m2 ∧ CycleFrame m.conf.num_captures m2 m := by
  obtain ⟨a0, a1, a2, h0, h1, h2⟩ := hfit
  have hf := capture_cycle_frame b m
  rw [do_capture_eq]
  by_cases hc : (capture_frames_brightness b m).1 = 0
  · rw [if_pos hc]
    by_cases ha : (capture_frames_brightness b m).2.state.ambient_br
        > (capture_frames_brightness b m).2.conf.shutter_threshold
    · rw [if_pos ha]
      obtain ⟨_, _, _, _, _, _, hac, _, _, _, hfp, _, _⟩ := hf
      rw [set_new_backlight_eq b _ _ a0 a1 a2 (by rw [hfp, hac]; exact h0)
        (by rw [hfp, hac]; exact h1) (by rw [hfp, hac]; exact h2)]
      exact ⟨_, rfl, apply_level_cycle_frame b _ _ _ m (capture_cycle_frame b m)⟩
    · rw [if_neg ha]
      exact ⟨_, rfl, hf⟩
  · rw [if_neg hc]
    exact ⟨_, rfl, hf⟩

theorem do_capture_manual (b : Bus) (m : Mod)
    (hfit : ∃ a0 a1 a2, idx2 m.state.fit_parameters m.state.ac_state 0 = some a0
      ∧ idx2 m.state.fit_parameters m.state.ac_state 1 = some a1
      ∧ idx2 m.state.fit_parameters m.state.ac_state 2 = some a2) :
    ∃ m', do_capture b false m = some m' ∧ CycleFrame m.conf.num_captures m' m := by
  obtain ⟨m2, hd, hf⟩ := do_capture_pre b false m hfit
  exact ⟨m2, by rw [hd]; rfl, hf⟩

theorem do_capture_timer (b : Bus) (m : Mod) (t : Int)
    (hfit : ∃ a0 a1 a2, idx2 m.state.fit_parameters m.state.ac_state 0 = some a0
      ∧ idx2 m.state.fit_parameters m.state.ac_state 1 = some a1
      ∧ idx2 m.state.fit_parameters m.state.ac_state 2 = some a2)
    (ht : get_current_timeout m = some t) :
    ∃ m2, do_capture b true m = some (emit (Effect.SetTimeout t 0 m.bl_fd 0) m2)
      ∧ CycleFrame m.conf.num_captures m2 m := by
  obtain ⟨m2, hd, hf⟩ := do_capture_pre b true m hfit
  have hto : get_current_timeout m2 = some t := by
    rw [← ht]
    exact get_current_timeout_congr _ _ hf.1 hf.2.2.2.2.2.2.1 hf.2.2.2.2.2.2.2.1
      hf.2.2.2.2.2.2.2.2.1
  refine ⟨m2, ?_, hf⟩
  rw [hd]
  simp [rearm, hto, hf.2.1]

/-! ## Messages while PAUSED -/

/-- C14, the code at the failing input: `receive_paused` reads
`msg->ps_msg->type` of a file-descriptor message, which has no defined result,
in every state; the handler `receive` tests `is_pubsub` first and handles the
same message. -/
theorem receive_paused_reads_ps_msg_of_fd_message (b : Bus) (fd : Int) (m : Mod) :
    receive_paused b (msg_t.fd_msg fd) m = none
    ∧ dispatch b (msg_t.fd_msg fd) { m with recvs := Recv.paused :: m.recvs } = none
    ∧ receive b (msg_t.fd_msg fd) m = do_capture b true (emit (Effect.Read fd) m) :=
  ⟨rfl, rfl, rfl⟩

/-- C15: on a manual-capture request, `receive_paused` runs a capture cycle
(`do_capture(false)`, which issues one sensor call) exactly when the display is
not dimmed and `sensor_available` is set; otherwise the state, trace included,
is unchanged, so no sensor call and no hardware write is issued. -/
theorem receive_paused_manual_capture_gated (b : Bus) (m : Mod)
    (hfit : ∃ a0 a1 a2, idx2 m.state.fit_parameters m.state.ac_state 0 = some a0
      ∧ idx2 m.state.fit_parameters m.state.ac_state 1 = some a1
      ∧ idx2 m.state.fit_parameters m.state.ac_state 2 = some a2) :
    ∃ m', receive_paused b (user_msg SubTopic.interface_bl_capture Message.DO_CAPTURE) m
        = some m'
      ∧ (sensor_calls m'.out = sensor_calls m.out ++ [Effect.Capture m.conf.num_captures]
          ↔ (m.state.display_state = 0 ∧ m.sensor_available ≠ 0))
      ∧ (m.state.display_state = 0 ∧ m.sensor_available ≠ 0 →
          do_capture b false m = some m')
      ∧ (¬ (m.state.display_state = 0 ∧ m.sensor_available ≠ 0) → m' = m) := by
  by_cases hg : m.state.display_state = 0 ∧ m.sensor_available ≠ 0
  · obtain ⟨m', hd, hf⟩ := do_capture_manual b m hfit
    refine ⟨m', ?_, ?_, fun _ => hd, fun hn => absurd hg hn⟩
    · simp only [receive_paused, user_msg, if_true, interface_calibrate_callback]
      rw [if_pos hg]
      exact hd
    · exact ⟨fun _ => hg, fun _ => hf.2.2.2.2.2.2.2.2.2.2.2.1⟩
  · refine ⟨m, ?_, ?_, fun h => absurd h hg, fun _ => rfl⟩
    · simp only [receive_paused, user_msg, if_true]
      rw [if_neg hg]
    · exact ⟨fun h => by simp at h, fun h => absurd h hg⟩

/-- Witness of C15: a manual-capture request on the PAUSED module `ex_paused`,
whose display is not dimmed and whose sensor is available. -/
theorem receive_paused_manual_capture_gated_witness :
    ∃ m', receive_paused ex_bus (user_msg SubTopic.interface_bl_capture Message.DO_CAPTURE)
        ex_paused = some m'
      ∧ (sensor_calls m'.out
            = sensor_calls ex_paused.out ++ [Effect.Capture ex_paused.conf.num_captures]
          ↔ (ex_paused.state.display_state = 0 ∧ ex_paused.sensor_available ≠ 0))
      ∧ (ex_paused.state.display_state = 0 ∧ ex_paused.sensor_available ≠ 0 →
          do_capture ex_bus false ex_paused = some m')
      ∧ (¬ (ex_paused.state.display_state = 0 ∧ ex_paused.sensor_available ≠ 0) →
          m' = ex_paused) :=
  receive_paused_manual_capture_gated ex_bus ex_paused ⟨0, 0, 1 / 100, rfl, rfl, rfl⟩

/-! ## Timer re-arming -/

/-- C17: in ACTIVE, a timer-expiry event ends by re-arming the timer with
`get_current_timeout()` whatever the bus replies to the capture (sensor call
failed, clogged reading, applied reading); a manual-capture request adds no
timer arming and leaves the timer descriptor and its registration as they
were, under `receive` and under `receive_paused`. -/
theorem timer_rearmed_by_expiry_only (b : Bus) (fd : Int) (m : Mod)
    (hfit : ∃ a0 a1 a2, idx2 m.state.fit_parameters m.state.ac_state 0 = some a0
      ∧ idx2 m.state.fit_parameters m.state.ac_state 1 = some a1
      ∧ idx2 m.state.fit_parameters m.state.ac_state 2 = some a2) :
    (∀ t, get_current_timeout m = some t →
      ∃ m', receive b (msg_t.fd_msg fd) m = some m'
        ∧ m'.out.getLast? = some (Effect.SetTimeout t 0 m.bl_fd 0)
        ∧ timer_armings m'.out = timer_armings m.out ++ [Effect.SetTimeout t 0 m.bl_fd 0]
        ∧ get_current_timeout m' = some t
        ∧ m'.fds = m.fds ∧ m'.bl_fd = m.bl_fd)
    ∧ (∃ m', receive b (user_msg SubTopic.interface_bl_capture Message.DO_CAPTURE) m = some m'
        ∧ timer_armings m'.out = timer_armings m.out
        ∧ m'.fds = m.fds ∧ m'.bl_fd = m.bl_fd)
    ∧ (∃ m', receive_paused b (user_msg SubTopic.interface_bl_capture Message.DO_CAPTURE) m
          = some m'
        ∧ timer_armings m'.out = timer_armings m.out
        ∧ m'.fds = m.fds ∧ m'.bl_fd = m.bl_fd) := by
  refine ⟨fun t ht => ?_, ?_, ?_⟩
  · obtain ⟨m2, hd, hf⟩ := do_capture_timer b (emit (Effect.Read fd) m) t hfit ht
    obtain ⟨h1, h2, h3, _, _, _, h7, h8, h9, _, _, _, h13⟩ := hf
    refine ⟨_, hd, ?_, ?_, ?_, ?_, ?_⟩
    · simp [emit]
    · simp only [emit, timer_armings, List.filterMap_append] at h13 ⊢
      rw [h13]
      simp [Effect.arming]
    · rw [← ht]
      exact get_current_timeout_congr _ _ h1 h7 h8 h9
    · exact h3
    · exact h2
  · obtain ⟨m', hd, hf⟩ := do_capture_manual b m hfit
    exact ⟨m', hd, hf.2.2.2.2.2.2.2.2.2.2.2.2, hf.2.2.1, hf.2.1⟩
  · by_cases hg : m.state.display_state = 0 ∧ m.sensor_available ≠ 0
    · obtain ⟨m', hd, hf⟩ := do_capture_manual b m hfit
      refine ⟨m', ?_, hf.2.2.2.2.2.2.2.2.2.2.2.2, hf.2.2.1, hf.2.1⟩
      simp only [receive_paused, user_msg, if_true, interface_calibrate_callback]
      rw [if_pos hg]
      exact hd
    · refine ⟨m, ?_, rfl, rfl, rfl⟩
      simp only [receive_paused, user_msg, if_true]
      rw [if_neg hg]

/-- Witness of C17: a timer expiry on `ex_mod` whose capture fails re-arms the
timer with `timeout[AC][DAY] = 600`. -/
theorem timer_rearmed_by_expiry_only_witness :
    ∃ m', receive ex_bus_capture_fails (msg_t.fd_msg 7) ex_mod = some m'
      ∧ m'.out.getLast? = some (Effect.SetTimeout 600 0 7 0)
      ∧ timer_armings m'.out = [Effect.SetTimeout 600 0 7 0] := by
  obtain ⟨m', h1, h2, h3, _⟩ :=
    (timer_rearmed_by_expiry_only ex_bus_capture_fails 7 ex_mod
      ⟨0, 0, 1 / 100, rfl, rfl, rfl⟩).1 600 rfl
  exact ⟨m', h1, h2, h3⟩

/-- Where `time_callback` does hand over the timeout in effect before the
change: on every entering/leaving-event change, and on a time-bucket change
outside an event. -/
theorem time_callback_old_timeout_elsewhere (old_val is_event : Int) (m : Mod) :
    (is_event ≠ 0 →
      time_callback old_val is_event m =
        (get_current_timeout
          { m with state := { m.state with
              in_event := if m.state.in_event ≠ 0 then 0 else 1 } }).bind
          (fun o => (get_current_timeout m).bind
            (fun n => some (emit (Effect.ResetTimer m.bl_fd o n) m))))
    ∧ (is_event = 0 → m.state.in_event = 0 →
      time_callback old_val is_event m =
        (get_current_timeout { m with state := { m.state with time := old_val } }).bind
          (fun o => (get_current_timeout m).bind
            (fun n => some (emit (Effect.ResetTimer m.bl_fd o n) m)))) := by
  constructor
  · intro he
    by_cases hi : m.state.in_event ≠ 0 <;> simp [time_callback, get_current_timeout, he, hi]
  · intro he hi
    simp [time_callback, get_current_timeout, he, hi]

/-- C18, the code at the failing input: the time bucket changes from DAY to
NIGHT during an event.  Before the change `get_current_timeout()` is
`timeout[AC][IN_EVENT] = 300`; `time_callback(DAY, 0)` hands
`timeout[AC][DAY] = 600` to `reset_timer` as the old timeout, with the new
timeout 300. -/
theorem time_callback_old_timeout_during_event :
    get_current_timeout ex_mod_day_in_event = some 300
    ∧ get_current_timeout ex_mod_night_in_event = some 300
    ∧ time_callback DAY 0 ex_mod_night_in_event
        = some (emit (Effect.ResetTimer 7 600 300) ex_mod_night_in_event)
    ∧ receive ex_bus (user_msg SubTopic.time_topic (Message.TIME_UPDATE DAY))
          ex_mod_night_in_event
        = some (emit (Effect.ResetTimer 7 600 300) ex_mod_night_in_event) :=
  ⟨rfl, rfl, rfl, rfl⟩

/-! ## Power-source change -/

/-- C19: in ACTIVE, `upower_callback` arms the timer with a zero-second,
one-nanosecond expiry whatever the timeout table holds; and after a
power-source change stored by `on_upower_change`, the capture that this expiry
triggers evaluates the quadratic of the new power source and ends by re-arming
the timer with `get_current_timeout()` for the new power source. -/
theorem upower_change_triggers_recapture (b0 b1 b2 : Bus) (m : Mod) :
    (∀ old new, m.recvs = [] →
      dispatch b1 (user_msg SubTopic.up_topic (Message.UPOWER_UPDATE old new)) m
        = some (emit (Effect.SetTimeout 0 1 m.bl_fd 0) m))
    ∧ (∀ (a0 a1 a2 amb : ℚ) (t : Int), m.recvs = [] →
        b0.on_battery_r = 0 → b0.on_battery ≠ m.state.ac_state →
        b2.capture_r = 0 →
        compute_average b2.intensity m.conf.num_captures = amb →
        amb > m.conf.shutter_threshold →
        idx2 m.state.fit_parameters b0.on_battery 0 = some a0 →
        idx2 m.state.fit_parameters b0.on_battery 1 = some a1 →
        idx2 m.state.fit_parameters b0.on_battery 2 = some a2 →
        idx2 m.conf.timeout b0.on_battery
            (if m.state.in_event ≠ 0 then IN_EVENT else m.state.time) = some t →
        ∃ m1 m2 m3,
          on_upower_change b0 m
            = (some (Message.UPOWER_UPDATE m.state.ac_state b0.on_battery), m1)
          ∧ m1.state.ac_state = b0.on_battery
          ∧ dispatch b1 (user_msg SubTopic.up_topic
                (Message.UPOWER_UPDATE m.state.ac_state b0.on_battery)) m1 = some m2
          ∧ timer_armings m2.out = timer_armings m.out ++ [Effect.SetTimeout 0 1 m.bl_fd 0]
          ∧ dispatch b2 (msg_t.fd_msg m.bl_fd) m2 = some m3
          ∧ backlight_writes m3.out = backlight_writes m.out ++
              [clamp (a0 + a1 * (10 * amb) + a2 * (10 * amb) ^ 2) 1 0]
          ∧ get_current_timeout m3 = some t
          ∧ m3.out.getLast? = some (Effect.SetTimeout t 0 m.bl_fd 0)) := by
  refine ⟨fun old new hact => ?_, ?_⟩
  · simp [dispatch, hact, receive, user_msg, upower_callback]
  · intro a0 a1 a2 amb t hact hr hchg hcap havg hamb h0 h1 h2 ht
    subst havg
    have hchg' : ¬ m.state.ac_state = b0.on_battery := fun h => hchg h.symm
    have hfit : ∃ a0 a1 a2,
        idx2 m.state.fit_parameters b0.on_battery 0 = some a0
        ∧ idx2 m.state.fit_parameters b0.on_battery 1 = some a1
        ∧ idx2 m.state.fit_parameters b0.on_battery 2 = some a2 := ⟨a0, a1, a2, h0, h1, h2⟩
    have hto : get_current_timeout
        (emit (Effect.Read m.bl_fd) (emit (Effect.SetTimeout 0 1 m.bl_fd 0)
          (emit (Effect.PubAcState m.state.ac_state b0.on_battery)
            { m with state := { m.state with ac_state := b0.on_battery } }))) = some t := by
      rw [← ht]
      by_cases he : m.state.in_event ≠ 0 <;> simp [get_current_timeout, emit, he]
    obtain ⟨m2', hd, hf⟩ := do_capture_timer b2
      (emit (Effect.Read m.bl_fd) (emit (Effect.SetTimeout 0 1 m.bl_fd 0)
          (emit (Effect.PubAcState m.state.ac_state b0.on_battery)
            { m with state := { m.state with ac_state := b0.on_battery } }))) t hfit hto
    obtain ⟨m3, hd3, _, _, hw⟩ := do_capture_applied b2 true
      (emit (Effect.Read m.bl_fd) (emit (Effect.SetTimeout 0 1 m.bl_fd 0)
          (emit (Effect.PubAcState m.state.ac_state b0.on_battery)
            { m with state := { m.state with ac_state := b0.on_battery } }))) a0 a1 a2 hcap hamb h0 h1 h2
      (fun _ => ⟨t, hto⟩)
    have hx : compute_average b2.intensity m.conf.num_captures * 10
        = 10 * compute_average b2.intensity m.conf.num_captures := mul_comm _ _
    refine ⟨emit (Effect.PubAcState m.state.ac_state b0.on_battery)
        { m with state := { m.state with ac_state := b0.on_battery } },
      emit (Effect.SetTimeout 0 1 m.bl_fd 0)
        (emit (Effect.PubAcState m.state.ac_state b0.on_battery)
          { m with state := { m.state with ac_state := b0.on_battery } }),
      m3, ?_, ?_, ?_, ?_, ?_, ?_, ?_, ?_⟩
    · simp [on_upower_change, hr, hchg']
    · simp [emit]
    · simp [dispatch, emit, hact, receive, user_msg, upower_callback]
    · simp [emit, timer_armings, Effect.arming, List.filterMap_append]
    · simpa [dispatch, emit, hact, receive] using hd3
    · rw [hw]
      simp [emit, backlight_writes, Effect.backlight_pct, List.filterMap_append, target, hx]
    · have he : some m3 = some (emit (Effect.SetTimeout t 0 m.bl_fd 0) m2') :=
        hd3.symm.trans hd
      rw [Option.some.inj he, ← hto]
      exact get_current_timeout_congr _ _ hf.1 hf.2.2.2.2.2.2.1 hf.2.2.2.2.2.2.2.1
        hf.2.2.2.2.2.2.2.2.1
    · have he : some m3 = some (emit (Effect.SetTimeout t 0 m.bl_fd 0) m2') :=
        hd3.symm.trans hd
      rw [Option.some.inj he]
      simp [emit]

/-- Witness of C19: `ex_mod` on AC learns that the machine is on battery;
the re-capture evaluates the battery curve `0.1 + 0.05 x` at `x = 5` and
re-arms with `timeout[BATTERY][DAY] = 1200`. -/
theorem upower_change_triggers_recapture_witness :
    ∃ m1 m2 m3,
      on_upower_change ex_bus ex_mod = (some (Message.UPOWER_UPDATE 0 1), m1)
      ∧ m1.state.ac_state = 1
      ∧ dispatch ex_bus (user_msg SubTopic.up_topic (Message.UPOWER_UPDATE 0 1)) m1 = some m2
      ∧ timer_armings m2.out = [Effect.SetTimeout 0 1 7 0]
      ∧ dispatch ex_bus (msg_t.fd_msg 7) m2 = some m3
      ∧ backlight_writes m3.out = [7 / 20]
      ∧ get_current_timeout m3 = some 1200
      ∧ m3.out.getLast? = some (Effect.SetTimeout 1200 0 7 0) := by
  obtain ⟨m1, m2, m3, h1, h2, h3, h4, h5, h6, h7, h8⟩ :=
    (upower_change_triggers_recapture ex_bus ex_bus ex_bus ex_mod).2 (1 / 10) (1 / 20) 0 (1 / 2)
      1200 rfl rfl (by decide) rfl ex_average (by norm_num [ex_mod, ex_conf]) rfl rfl rfl rfl
  have hv : clamp (1 / 10 + 1 / 20 * (10 * (1 / 2)) + 0 * (10 * (1 / 2)) ^ 2) 1 0
      = (7 / 20 : ℚ) := by
    norm_num [clamp]
  rw [hv] at h6
  exact ⟨m1, m2, m3, h1, h2, h3, h4, h5, h6, h7, h8⟩

/-! ## Pausing conditions -/

theorem event_inv_init (b : Bus) (c : Conf) (s : State) (hd : s.display_state = 0) :
    EventInv (init b (Mod.fresh c s)) := by
  by_cases ha : b.avail_r = 0 ∧ b.avail ≠ 0 <;>
  by_cases hc : c.no_auto_calib = 0 <;>
  by_cases hk : b.kbd_max_r = 0 <;>
  simp [EventInv, pausing_conditions, init, polynomialfit, ON_AC, ON_BATTERY,
    init_kbd_backlight, is_sensor_available, emit, m_register_fd, m_become, Mod.fresh,
    init_subscriptions, ha, hc, hk, hd]

theorem dispatch_display_update (b : Bus) (m : Mod) :
    dispatch b (user_msg SubTopic.display_topic Message.DISPLAY_UPDATE) m
      = some (dimmed_callback m) := by
  rcases m with ⟨c, s, sa, mk, fd, recvs, fds, mb, out⟩
  cases recvs with
  | nil => simp [dispatch, user_msg, receive]
  | cons r rs => cases r; simp [dispatch, user_msg, receive_paused]

theorem dispatch_autocalib_upd (b : Bus) (m : Mod) :
    dispatch b (user_msg SubTopic.interface_bl_autocalib Message.AUTOCALIB_UPD) m
      = some (interface_autocalib_callback m) := by
  rcases m with ⟨c, s, sa, mk, fd, recvs, fds, mb, out⟩
  cases recvs with
  | nil => simp [dispatch, user_msg, receive]
  | cons r rs => cases r; simp [dispatch, user_msg, receive_paused]

theorem event_inv_display (new_state : Int) (m : Mod) (h : EventInv m)
    (hn : new_state ≠ m.state.display_state) :
    EventInv (dimmed_callback { m with state := { m.state with display_state := new_state } }) := by
  obtain ⟨hs, hc⟩ := h
  unfold pausing_conditions at hc
  simp only [ne_eq] at hc
  by_cases h0 : new_state = 0
  · have hold : ¬ m.state.display_state = 0 := fun he => hn (h0.trans he.symm)
    rw [if_pos hold] at hc
    refine ⟨by simpa [dimmed_callback, h0, resume_mod, m_tell, m_unbecome] using hs, ?_⟩
    simp only [pausing_conditions, dimmed_callback, h0, resume_mod, m_tell, m_unbecome, ne_eq,
      not_true_eq_false, if_false, List.length_tail]
    omega
  · refine ⟨by simpa [dimmed_callback, h0, pause_mod, m_tell, m_become] using hs, ?_⟩
    simp only [pausing_conditions, dimmed_callback, h0, pause_mod, m_tell, m_become, ne_eq,
      not_false_eq_true, if_true, List.length_cons]
    split_ifs at hc ⊢ <;> omega

theorem event_inv_autocalib (new_flag : Int) (m : Mod) (h : EventInv m)
    (hn : new_flag = 0 ↔ m.conf.no_auto_calib ≠ 0) :
    EventInv (interface_autocalib_callback
      { m with conf := { m.conf with no_auto_calib := new_flag } }) := by
  obtain ⟨hs, hc⟩ := h
  unfold pausing_conditions at hc
  simp only [ne_eq] at hc
  by_cases h0 : new_flag = 0
  · have hold : ¬ m.conf.no_auto_calib = 0 := hn.mp h0
    rw [if_pos hold] at hc
    refine ⟨by simpa [interface_autocalib_callback, h0, resume_mod, m_tell, m_unbecome] using hs,
      ?_⟩
    simp only [pausing_conditions, interface_autocalib_callback, h0, resume_mod, m_tell,
      m_unbecome, ne_eq, not_true_eq_false, if_false, List.length_tail]
    omega
  · refine ⟨by simpa [interface_autocalib_callback, h0, pause_mod, m_tell, m_become] using hs,
      ?_⟩
    simp only [pausing_conditions, interface_autocalib_callback, h0, pause_mod, m_tell,
      m_become, ne_eq, not_false_eq_true, if_true, List.length_cons]
    split_ifs at hc ⊢ <;> omega

theorem on_sensor_change_eq (b : Bus) (m : Mod) :
    on_sensor_change b m =
      if (if b.avail_r = 0 ∧ b.avail ≠ 0 then (1 : Int) else 0) = m.sensor_available then
        emit Effect.IsAvailable m
      else if b.avail_r = 0 ∧ b.avail ≠ 0 then
        resume_mod { emit Effect.IsAvailable m with sensor_available := 1 }
      else pause_mod { emit Effect.IsAvailable m with sensor_available := 0 } := by
  by_cases ha : b.avail_r = 0 ∧ b.avail ≠ 0
  · by_cases hs : (1 : Int) = m.sensor_available
    · simp [on_sensor_change, is_sensor_available, ha, emit, ← hs]
    · simp [on_sensor_change, is_sensor_available, ha, emit, hs]
  · by_cases hs : (0 : Int) = m.sensor_available
    · simp [on_sensor_change, is_sensor_available, ha, emit, ← hs]
    · simp [on_sensor_change, is_sensor_available, ha, emit, hs]

theorem event_inv_sensor (b : Bus) (m : Mod) (h : EventInv m) :
    EventInv (on_sensor_change b m) := by
  obtain ⟨hs, hc⟩ := h
  unfold pausing_conditions at hc
  simp only [ne_eq] at hc
  rw [on_sensor_change_eq]
  by_cases ha : b.avail_r = 0 ∧ b.avail ≠ 0
  · rw [if_pos ha, if_pos ha]
    rcases hs with hs | hs
    · have hne' : ¬ (1 : Int) = m.sensor_available := by rw [hs]; decide
      rw [if_neg hne']
      rw [if_pos hs] at hc
      refine ⟨Or.inr rfl, ?_⟩
      simp only [pausing_conditions, resume_mod, m_tell, m_unbecome, emit, ne_eq, one_ne_zero,
        if_false, List.length_tail]
      omega
    · rw [if_pos hs.symm]
      exact ⟨Or.inr hs, by simpa [pausing_conditions, emit] using hc⟩
  · rw [if_neg ha, if_neg ha]
    rcases hs with hs | hs
    · rw [if_pos hs.symm]
      exact ⟨Or.inl hs, by simpa [pausing_conditions, emit] using hc⟩
    · have hne : ¬ m.sensor_available = 0 := by rw [hs]; decide
      have hne' : ¬ (0 : Int) = m.sensor_available := fun h => hne h.symm
      rw [if_neg hne']
      rw [if_neg hne] at hc
      refine ⟨Or.inl rfl, ?_⟩
      simp only [pausing_conditions, pause_mod, m_tell, m_become, emit, ne_eq, if_true,
        List.length_cons]
      omega

theorem event_inv_deliver (b : Bus) (m m' : Mod) (h : EventInv m)
    (hd : deliver b m = some m') : EventInv m' := by
  unfold deliver at hd
  cases hm : m.mailbox with
  | nil =>
    rw [hm] at hd
    simp only [Option.some.injEq] at hd
    rw [← hd]
    exact h
  | cons u rest =>
    rw [hm] at hd
    simp only [dispatch_self_msg, Option.some.injEq] at hd
    obtain ⟨f1, _, _, f4, f5, f6, _⟩ := confirm_frame u { m with mailbox := rest }
    rw [← hd]
    unfold EventInv pausing_conditions
    rw [f1, f4, f5, f6]
    exact h

theorem event_reach_inv (m0 m : Mod) (h0 : EventInv m0) (h : EventReach m0 m) : EventInv m := by
  induction h with
  | start => exact h0
  | display b new_state m m' _ hn hd ih =>
    rw [dispatch_display_update, Option.some.injEq] at hd
    rw [← hd]
    exact event_inv_display new_state m ih hn
  | autocalib b new_flag m m' _ hn hd ih =>
    rw [dispatch_autocalib_upd, Option.some.injEq] at hd
    rw [← hd]
    exact event_inv_autocalib new_flag m ih hn
  | sensor b m _ ih => exact event_inv_sensor b m ih
  | deliver b m m' _ hd ih => exact event_inv_deliver b m m' ih hd

/-- C20, as stated, fails at start-up: `init` stacks a paused handler for a
missing sensor and for disabled auto-calibration only, so with a sensor,
auto-calibration enabled and the display already dimmed the machine is ACTIVE
while the display is dimmed, before any event. -/
theorem active_with_dimmed_display_at_init :
    ¬ ∀ (b : Bus) (c : Conf) (s : State) (m : Mod),
        EventReach (init b (Mod.fresh c s)) m → lifecycle m = Lifecycle.ACTIVE →
        m.state.display_state = 0 ∧ m.sensor_available ≠ 0 ∧ m.conf.no_auto_calib = 0 := by
  intro h
  have h1 := h ex_bus ex_conf ex_state_dimmed _ EventReach.start
    (by simp [lifecycle, init, polynomialfit, ON_AC, ON_BATTERY, init_kbd_backlight,
      is_sensor_available, emit, m_register_fd, Mod.fresh, init_subscriptions, ex_bus, ex_conf])
  have h2 : (init ex_bus (Mod.fresh ex_conf ex_state_dimmed)).state.display_state = 1 := by
    simp [init, polynomialfit, ON_AC, ON_BATTERY, init_kbd_backlight, is_sensor_available, emit,
      m_register_fd, Mod.fresh, init_subscriptions, ex_bus, ex_conf, ex_state_dimmed]
  rw [h2] at h1
  exact absurd h1.1 (by decide)

/-- C20, amended: when the display is not dimmed as `init` runs, then after
every sequence of display-dim change events, auto-calibration toggles,
sensor-availability notifications and deliveries of confirmations, an ACTIVE
machine has the display not dimmed, the sensor available and auto-calibration
enabled. -/
theorem active_implies_no_pausing_condition (b : Bus) (c : Conf) (s : State) (m : Mod)
    (hd : s.display_state = 0)
    (hr : EventReach (init b (Mod.fresh c s)) m)
    (ha : lifecycle m = Lifecycle.ACTIVE) :
    m.state.display_state = 0 ∧ m.sensor_available ≠ 0 ∧ m.conf.no_auto_calib = 0 := by
  obtain ⟨_, hc⟩ := event_reach_inv _ m (event_inv_init b c s hd) hr
  have hnil : m.recvs = [] := by
    rcases m with ⟨c, s, sa, mk, fd, recvs, fds, mb, out⟩
    cases recvs with
    | nil => rfl
    | cons r rs => cases r; simp [lifecycle] at ha
  rw [hnil] at hc
  unfold pausing_conditions at hc
  simp only [List.length_nil, ne_eq] at hc
  refine ⟨?_, ?_, ?_⟩
  · by_contra h
    rw [if_pos h] at hc
    omega
  · intro h
    rw [if_pos h] at hc
    omega
  · by_contra h
    rw [if_pos h] at hc
    omega

/-- Witness of C20, amended: from `init` the sensor is lost, the display is
dimmed, the sensor comes back (the machine stays PAUSED, the display is still
dimmed) and the display is undimmed (the machine is ACTIVE, no pausing
condition holds). -/
theorem active_implies_no_pausing_condition_witness :
    lifecycle ex_run_sensor_back = Lifecycle.PAUSED
      ∧ ex_run_sensor_back.state.display_state ≠ 0
      ∧ lifecycle ex_run_undimmed = Lifecycle.ACTIVE
      ∧ ex_run_undimmed.state.display_state = 0 ∧ ex_run_undimmed.sensor_available ≠ 0
      ∧ ex_run_undimmed.conf.no_auto_calib = 0 := by
  have r1 : EventReach (init ex_bus (Mod.fresh ex_conf ex_state)) ex_run_sensor_lost :=
    EventReach.sensor ex_bus_no_sensor _ EventReach.start
  have r2 : EventReach (init ex_bus (Mod.fresh ex_conf ex_state)) ex_run_dimmed :=
    EventReach.display ex_bus 1 ex_run_sensor_lost _ r1 (by decide)
      (dispatch_display_update ex_bus _)
  have r3 : EventReach (init ex_bus (Mod.fresh ex_conf ex_state)) ex_run_sensor_back :=
    EventReach.sensor ex_bus _ r2
  have r4 : EventReach (init ex_bus (Mod.fresh ex_conf ex_state)) ex_run_undimmed :=
    EventReach.display ex_bus 0 ex_run_sensor_back _ r3 (by decide)
      (dispatch_display_update ex_bus _)
  have hact : lifecycle ex_run_undimmed = Lifecycle.ACTIVE := by decide
  exact ⟨by decide, by decide, hact,
    active_implies_no_pausing_condition ex_bus ex_conf ex_state ex_run_undimmed rfl r4 hact⟩

end Clight
